import Mathlib

/-!
# go-akeneo: token lifecycle, request helpers and attribute-value decoding

A shallow embedding of `auth.go`, of the request helpers and the client validation
of `akeneo.go` (createAndDoGetHeaders, POST, download, upload, validate) with the
constants of `default.go`, and of `ProductValue.ParseValue` and the value methods of
`entity.go`.

Conventions of the embedding

* A Go `error` is a value of `error`; the nil error is `none : Option error`.
* A `time.Time` is an instant counted in nanoseconds (an `Int`); a
  `time.Duration` is a signed 64-bit count of nanoseconds, so arithmetic on
  durations wraps (`wrap64`).
* The outside world (clock, upstream service) is an `Env` of oracles indexed by
  a tick counter kept in the state: the k-th interaction reads its oracle at k.
* `sync.Mutex` is one Boolean; `Lock` on a held mutex parks the goroutine, which
  in a sequential run means the call never returns (`Run.blocked`).
* Libraries are not embedded: `mapstructure.Decode` and the file-system calls are
  parameters (`Mapstructure`, `Os`); the retry loop of resty and the encoding of a
  variant as an envelope, which the package does not contain, are modelled from the
  specification (`Backoff`, `encode`).
-/

namespace goakeneo

/-! ## Dynamic values (`any`) and the value envelope -/

/-- Dynamic Go values held in an `any`, by dynamic type. -/
inductive Value where
  /-- the nil interface value -/
  | nil
  /-- dynamic type `string` -/
  | string (s : String)
  /-- dynamic type `int` -/
  | int (i : Int)
  /-- dynamic type `float64`, kept by its bit pattern -/
  | float64 (bits : Nat)
  /-- dynamic type `bool` -/
  | bool (b : Bool)
  /-- dynamic type `*string`; `none` is the nil pointer -/
  | strPtr (p : Option String)
  /-- dynamic type `*bool` -/
  | boolPtr (p : Option Bool)
  /-- dynamic type `*int` -/
  | intPtr (p : Option Int)
  /-- dynamic type `[]string` -/
  | strSlice (xs : List String)
  /-- dynamic type `map[string]interface{}`, as an association list -/
  | map (m : List (String × Value))
  /-- dynamic type `[]interface{}` -/
  | slice (xs : List Value)
  /-- any other dynamic type, by name -/
  | other (typeName : String)

/-- The Go type `map[string]interface{}`. -/
abbrev GoMap := List (String × Value)

/-- Map index expression `m[k]` with comma-ok: the value and whether the key is present. -/
def GoMap.get (m : GoMap) (k : String) : Option Value :=
  (m.find? (fun kv => kv.1 == k)).map (fun kv => kv.2)

/-- Map index expression `m[k]`: the zero value (nil interface) when absent. -/
def GoMap.index (m : GoMap) (k : String) : Value :=
  (GoMap.get m k).getD Value.nil

/-- ProductValue of entity.go. -/
structure ProductValue where
  Locale : Option String
  Scope : Option String
  Data : Value
  Links : Value
  LinkedData : Value

/-! ## Errors -/

/-- Go error values built by this package. -/
inductive error where
  /-- built by `errors.New(msg)`, or by `errors.Errorf` whose verbs are all `%s`/`%d`, already formatted -/
  | New (msg : String)
  /-- built by `errors.Wrap(cause, msg)` for a non-nil cause -/
  | Wrap (cause : error) (msg : String)
  /-- built by `errors.Errorf(format, v)` / `fmt.Errorf(format, v)` with a `%v` of the envelope -/
  | Errorf (format : String) (v : ProductValue)
  /-- an error value handed back by a library call (resty, mapstructure, net/url) -/
  | external (detail : String)

/-- Function errors.Wrap: nil when the cause is nil. -/
def errors.Wrap (err : Option error) (msg : String) : Option error :=
  err.map (fun e => error.Wrap e msg)

/-- Method Error(): the message of an error value. A wrapped error prints its message,
a colon and a blank, and the message of its cause. How `%v` prints an envelope is the
parameter `render`. -/
def error.Error (render : ProductValue → String) : error → String
  | .New msg => msg
  | .Wrap cause msg => msg ++ ": " ++ error.Error render cause
  | .Errorf format v => format.replace "%v" (render v)
  | .external detail => detail

/-! ## auth.go -/

/-- Signed 64-bit wrap-around, the arithmetic of `int64` and `time.Duration`. -/
def wrap64 (x : Int) : Int := (x + 2 ^ 63) % 2 ^ 64 - 2 ^ 63

/-- Constant time.Second in nanoseconds. -/
def time.Second : Int := 1000000000

/-- Constant time.Minute in nanoseconds. -/
def time.Minute : Int := 60 * time.Second

/-- authResponse of auth.go. -/
structure authResponse where
  AccessToken : String := ""
  ExpiresIn : Int := 0
  Scope : String := ""
  TokenType : String := ""
  RefreshToken : String := ""
deriving DecidableEq, Repr

/-- Method authResponse.validate. -/
def authResponse.validate (a : authResponse) : Option error :=
  if a.AccessToken == "" || a.RefreshToken == "" || a.ExpiresIn == 0 then
    some (error.New "invalid auth response")
  else none

/-- Connector of akeneo.go. -/
structure Connector where
  ClientID : String
  Secret : String
  UserName : String
  Password : String
deriving DecidableEq, Repr

/-- ValidationError of entity.go. -/
structure ValidationError where
  Property : String := ""
  Message : String := ""
  Attribute : String := ""
  Locale : String := ""
  Scope : String := ""
deriving DecidableEq, Repr

/-- ErrorResponse of entity.go. -/
structure ErrorResponse where
  Code : Int := 0
  Message : String := ""
  Errors : List ValidationError := []
deriving DecidableEq, Repr

/-- authByPasswordRequest of auth.go. -/
structure authByPasswordRequest where
  GrantType : String
  Username : String
  Password : String
deriving DecidableEq, Repr

/-- authByRefreshTokenRequest of auth.go. -/
structure authByRefreshTokenRequest where
  GrantType : String
  RefreshToken : String
deriving DecidableEq, Repr

/-- Constant authBasePath of auth.go. -/
def authBasePath : String := "api/oauth/v1/token"

/-- The Go type url.Values (`map[string][]string`), as an association list. -/
abbrev url.Values := List (String × List String)

/-- The Go type http.Header. -/
abbrev http.Header := List (String × List String)

/-- Method url.Values.Set: the key now holds exactly the one value. -/
def url.Values.Set (q : url.Values) (key value : String) : url.Values :=
  if q.any (fun kv => kv.1 == key) then
    q.map (fun kv => if kv.1 == key then (key, [value]) else kv)
  else q ++ [(key, [value])]

/-- A relative reference handed to `url.Parse`, with what the library parse gives:
its path and query, or the parse error. -/
structure RelPath where
  raw : String
  parsed : Except error (String × url.Values)

/-- The `relPath` argument for a constant, well-formed path without query. -/
def RelPath.plain (p : String) : RelPath := ⟨p, .ok (p, [])⟩

/-- The `opts any` argument of the request helpers, by dynamic type. -/
inductive Opts where
  /-- the nil interface -/
  | nil
  /-- a `url.Values` -/
  | values (v : url.Values)
  /-- a struct or a pointer to a struct, with the outcome of `structToURLValues` on it
  (a helper of the package that is not among the sources at hand) -/
  | struct (converted : Except error url.Values)
  /-- any other dynamic type -/
  | other

/-- The `data any` request body. -/
inductive Payload where
  /-- the body of the refresh-token grant -/
  | refreshToken (req : authByRefreshTokenRequest)
  /-- any other body, by a description -/
  | other (descr : String)
deriving DecidableEq, Repr

/-- One physical request as handed to resty's `Execute`. -/
structure Request where
  method : String
  path : String
  query : url.Values
  bearer : String
  body : Option Payload
deriving DecidableEq, Repr

/-- What `request.Execute` leaves behind in createAndDoGetHeaders: the returned
error, the final status, the error target, the result target and the headers. -/
structure HttpReply where
  err : Option error := none
  status : Nat := 200
  errResp : ErrorResponse := {}
  result : authResponse := {}
  header : http.Header := []

/-- Method resty Response.IsError: status above 399. -/
def HttpReply.IsError (r : HttpReply) : Bool := decide (r.status > 399)

/-- What the resty call of GrantByPassword leaves behind: the returned error, the
result target and the error target. -/
structure PasswordReply where
  err : Option error := none
  result : authResponse := {}
  errResp : ErrorResponse := {}

/-- What the `Get` of download and the `Post` of upload leave behind: the returned
error, the final status, the body, the headers, and what `json.Unmarshal` of the body
into an ErrorResponse gives. -/
structure RawReply where
  err : Option error := none
  status : Nat := 200
  body : String := ""
  header : http.Header := []
  unmarshal : Except error ErrorResponse := .ok {}

/-- Method resty Response.IsError on a raw reply: status above 399. -/
def RawReply.IsError (r : RawReply) : Bool := decide (r.status > 399)

/-- Observable actions of a run, oldest first. -/
inductive Event where
  /-- the password-grant exchange, with the basic-auth credentials and the body -/
  | passwordExchange (clientID secret : String) (req : authByPasswordRequest)
  /-- the call `c.limiter.Take()` -/
  | limiterTake
  /-- the call `request.Execute(method, url)` in createAndDoGetHeaders, the `Get` of download,
  the `Post` of upload -/
  | dispatch (req : Request)
deriving DecidableEq, Repr

/-- The outside world: the k-th interaction reads its oracle at tick k. -/
structure Env where
  /-- what `time.Now()` returns -/
  clock : Nat → Int
  /-- the upstream's answer to the password-grant exchange -/
  password : Nat → String → String → authByPasswordRequest → PasswordReply
  /-- the upstream's answer to a request of createAndDoGetHeaders -/
  http : Nat → Request → HttpReply
  /-- the upstream's answer to the request of download or upload -/
  raw : Nat → Request → RawReply := fun _ _ => {}

/-- Session state: the Client fields the token lifecycle uses, the authOp mutex,
the tick counter and the trace of actions. -/
structure World where
  connector : Connector
  token : String
  refreshToken : String
  tokenExp : Int
  authMu : Bool
  tick : Nat
  trace : List Event
deriving DecidableEq, Repr

/-- Outcome of running a call. -/
inductive Run (α : Type) where
  /-- the call returned -/
  | ret (w : World) (a : α)
  /-- the goroutine is parked in `sync.Mutex.Lock` on a mutex nobody will release -/
  | blocked (w : World)
  /-- the model ran out of fuel -/
  | outOfFuel
deriving DecidableEq, Repr

/-- Method authOp.GrantByPassword. -/
def GrantByPassword (env : Env) (w : World) : World × Option error :=
  let request : authByPasswordRequest :=
    { GrantType := "password", Username := w.connector.UserName, Password := w.connector.Password }
  let reply := env.password w.tick w.connector.ClientID w.connector.Secret request
  let w := { w with tick := w.tick + 1,
                    trace := w.trace ++ [Event.passwordExchange w.connector.ClientID w.connector.Secret request] }
  match reply.err with
  | some e => (w, errors.Wrap (some e) "unable to authenticate to the Akeneo API")
  | none =>
    match reply.result.validate with
    | some e => (w, errors.Wrap (some e) "invalid response from the Akeneo API")
    | none =>
      if reply.errResp.Message != "" then
        -- `err` is the outer variable here, which is nil at this point
        (w, errors.Wrap none ("unable to authenticate to the Akeneo API: " ++ reply.errResp.Message))
      else
        let now := env.clock w.tick
        ({ w with tick := w.tick + 1,
                  token := reply.result.AccessToken,
                  refreshToken := reply.result.RefreshToken,
                  tokenExp := now + wrap64 (reply.result.ExpiresIn * time.Second) }, none)

/-- Method authOp.ShouldRefreshToken, at the clock reading `now`. -/
def ShouldRefreshToken (now : Int) (w : World) : Bool :=
  decide (now + 5 * time.Minute > w.tokenExp)

/-- The error built by createAndDoGetHeaders from an error-status response. -/
def requestError (errResp : ErrorResponse) : error :=
  if errResp.Code == 422 && errResp.Errors.length > 0 then
    let errMessages := errResp.Errors.map (fun err =>
      "Attribute '" ++ err.Attribute ++ "', property '" ++ err.Property ++ "': " ++ err.Message)
    error.Wrap (error.New ("; ".intercalate errMessages)) ("request error : " ++ errResp.Message)
  else
    error.New ("request error : " ++ errResp.Message)

/-- The query merge of createAndDoGetHeaders: every value of every key is `Set`. -/
def mergeQuery (query : url.Values) (v : url.Values) : url.Values :=
  v.foldl (fun q kv => kv.2.foldl (fun q value => url.Values.Set q kv.1 value) q) query

mutual
/-- Method authOp.AutoRefreshToken. -/
def AutoRefreshToken (env : Env) : Nat → World → Run (Option error)
  | 0, _ => .outOfFuel
  | n + 1, w =>
    -- a.authMu.Lock()
    if w.authMu then .blocked w
    else
      let w := { w with authMu := true }
      let now := env.clock w.tick
      let w := { w with tick := w.tick + 1 }
      if ShouldRefreshToken now w then
        match GrantByRefreshToken env n w with
        | .ret w (some _) =>
          let r := GrantByPassword env w
          .ret { r.1 with authMu := false } r.2
        | .ret w none => .ret { w with authMu := false } none
        | .blocked w => .blocked w
        | .outOfFuel => .outOfFuel
      else .ret { w with authMu := false } none

/-- Method authOp.GrantByRefreshToken. -/
def GrantByRefreshToken (env : Env) : Nat → World → Run (Option error)
  | 0, _ => .outOfFuel
  | n + 1, w =>
    let request : authByRefreshTokenRequest :=
      { GrantType := "refresh_token", RefreshToken := w.refreshToken }
    match POST env n (RelPath.plain authBasePath) Opts.nil (some (Payload.refreshToken request)) w with
    | .ret w (_, some err) => .ret w (some err)
    | .ret w (result, none) =>
      match result.validate with
      | some err => .ret w (some err)
      | none =>
        let now := env.clock w.tick
        .ret { w with tick := w.tick + 1,
                      token := result.AccessToken,
                      refreshToken := result.RefreshToken,
                      tokenExp := now + wrap64 (result.ExpiresIn * time.Second) } none
    | .blocked w => .blocked w
    | .outOfFuel => .outOfFuel

/-- Method Client.POST; the first component is the `result` target after the call. -/
def POST (env : Env) : Nat → RelPath → Opts → Option Payload → World → Run (authResponse × Option error)
  | 0, _, _, _, _ => .outOfFuel
  | n + 1, relPath, ops, data, w =>
    match createAndDoGetHeaders env n "POST" relPath ops data w with
    | .ret w (result, _, err) => .ret w (result, errors.Wrap err "POST error")
    | .blocked w => .blocked w
    | .outOfFuel => .outOfFuel

/-- Method Client.createAndDoGetHeaders; the first component is the `result` target
after the call. -/
def createAndDoGetHeaders (env : Env) :
    Nat → String → RelPath → Opts → Option Payload → World →
      Run (authResponse × http.Header × Option error)
  | 0, _, _, _, _, _ => .outOfFuel
  | n + 1, method, relPath, opts, data, w =>
    match AutoRefreshToken env n w with
    | .blocked w => .blocked w
    | .outOfFuel => .outOfFuel
    | .ret w (some err) => .ret w ({}, [], some err)
    | .ret w none =>
      match relPath.parsed with
      | .error err => .ret w ({}, [], some err)
      | .ok (path, query0) =>
        let merged : Except error url.Values :=
          match opts with
          | .nil => .ok query0
          | .values v => .ok (mergeQuery query0 v)
          | .struct (.ok v) => .ok (mergeQuery query0 v)
          | .struct (.error err) => .error (error.Wrap err "unable to convert struct to url values")
          | .other => .error (error.New "opts must be a struct or a pointer to a struct or a url.Values")
        match merged with
        | .error err => .ret w ({}, [], some err)
        | .ok query =>
          let req : Request :=
            { method := method, path := path, query := query, bearer := w.token, body := data }
          let reply := env.http w.tick req
          let w := { w with tick := w.tick + 1,
                            trace := w.trace ++ [Event.limiterTake, Event.dispatch req] }
          match reply.err with
          | some err => .ret w ({}, [], errors.Wrap (some err) "resty execute error")
          | none =>
            if reply.IsError then .ret w ({}, [], some (requestError reply.errResp))
            else .ret w (reply.result, reply.header, none)
end

/-! ## entity.go: the typed variants and ParseValue -/

/-- Constant ValueTypeString (`iota + 1`). -/
def ValueTypeString : Int := 1
/-- Constant ValueTypeStringCollection. -/
def ValueTypeStringCollection : Int := 2
/-- Constant ValueTypeNumber. -/
def ValueTypeNumber : Int := 3
/-- Constant ValueTypeMetric. -/
def ValueTypeMetric : Int := 4
/-- Constant ValueTypePrice. -/
def ValueTypePrice : Int := 5
/-- Constant ValueTypeBoolean. -/
def ValueTypeBoolean : Int := 6
/-- Constant ValueTypeSimpleSelect. -/
def ValueTypeSimpleSelect : Int := 7
/-- Constant ValueTypeMultiSelect. -/
def ValueTypeMultiSelect : Int := 8
/-- Constant ValueTypeTable. -/
def ValueTypeTable : Int := 9
/-- Constant ValueTypeMedia. -/
def ValueTypeMedia : Int := 10
/-- Constant ValueTypeMediaSet. -/
def ValueTypeMediaSet : Int := 11

/-- Link of entity.go. -/
structure Link where
  Href : String := ""
deriving DecidableEq, Repr

/-- Links of entity.go. -/
structure Links where
  Self : Link := {}
  First : Link := {}
  Previous : Link := {}
  Next : Link := {}
  Download : Link := {}
deriving DecidableEq, Repr

/-- MediaValue of entity.go; `Links` is a `*Links`. -/
structure MediaValue where
  Locale : Option String
  Scope : Option String
  Data : Option String
  Links : Option Links

/-- MediaSetValue of entity.go; its locale and scope are plain strings and `Links` is a
`[]*Links`. -/
structure MediaSetValue where
  Locale : String := ""
  Scope : String := ""
  Data : List String := []
  Links : List (Option Links) := []

/-- StringValue of entity.go. -/
structure StringValue where
  Locale : Option String
  Scope : Option String
  Data : Option String

/-- StringCollectionValue of entity.go. -/
structure StringCollectionValue where
  Locale : Option String
  Scope : Option String
  Data : List String

/-- NumberValue of entity.go. -/
structure NumberValue where
  Locale : Option String
  Scope : Option String
  Data : Option Int

/-- The struct metric of entity.go. -/
structure metric where
  Amount : Value
  Unit : String

/-- MetricValue of entity.go. -/
structure MetricValue where
  Locale : Option String
  Scope : Option String
  Data : metric

/-- The struct price of entity.go. -/
structure price where
  Amount : Value
  Currency : String

/-- PriceValue of entity.go. -/
structure PriceValue where
  Locale : Option String
  Scope : Option String
  Data : List price

/-- BooleanValue of entity.go. -/
structure BooleanValue where
  Locale : Option String
  Scope : Option String
  Data : Option Bool

/-- The struct linkedData of entity.go. -/
structure linkedData where
  Attribute : String := ""
  Code : String := ""
  Labels : List (String × String) := []
deriving DecidableEq, Repr

/-- SimpleSelectValue of entity.go. -/
structure SimpleSelectValue where
  Locale : Option String
  Scope : Option String
  Data : Option String
  LinkedData : linkedData

/-- MultiSelectValue of entity.go. -/
structure MultiSelectValue where
  Locale : Option String
  Scope : Option String
  Data : List String
  LinkedData : List (String × linkedData)

/-- TableValue of entity.go. -/
structure TableValue where
  Locale : Option String
  Scope : Option String
  Data : List GoMap

/-- The interface PimProductValue: the eleven types that implement it. -/
inductive PimProductValue where
  | media (v : MediaValue)
  | mediaSet (v : MediaSetValue)
  | string (v : StringValue)
  | stringCollection (v : StringCollectionValue)
  | number (v : NumberValue)
  | metric (v : MetricValue)
  | price (v : PriceValue)
  | boolean (v : BooleanValue)
  | simpleSelect (v : SimpleSelectValue)
  | multiSelect (v : MultiSelectValue)
  | table (v : TableValue)

/-- Method ValueType of each variant. -/
def PimProductValue.ValueType : PimProductValue → Int
  | .media _ => ValueTypeMedia
  | .mediaSet _ => ValueTypeMediaSet
  | .string _ => ValueTypeString
  | .stringCollection _ => ValueTypeStringCollection
  | .number _ => ValueTypeNumber
  | .metric _ => ValueTypeMetric
  | .price _ => ValueTypePrice
  | .boolean _ => ValueTypeBoolean
  | .simpleSelect _ => ValueTypeSimpleSelect
  | .multiSelect _ => ValueTypeMultiSelect
  | .table _ => ValueTypeTable

/-- Run-time panics that ParseValue can raise. -/
inductive Panic where
  /-- index out of range [i] with length len -/
  | indexOutOfRange (i len : Nat)
  /-- a failed type assertion `x.(string)` without comma-ok -/
  | interfaceConversion
deriving DecidableEq, Repr

/-- What a call of ParseValue does: return a variant, return an error, or panic. -/
inductive Outcome (α : Type) where
  | ok (a : α)
  | err (e : error)
  | panic (p : Panic)

/-- The four uses ParseValue makes of `mapstructure.Decode` (a third-party library),
one per target type; each gives the decoded target or the library's error. -/
structure Mapstructure where
  /-- target `&result.Links`, a `**Links` -/
  decodeLinksPtr : GoMap → Except error (Option Links)
  /-- target `link`, a fresh `*Links` -/
  decodeLinks : GoMap → Except error Links
  /-- target `&result.LinkedData` of a SimpleSelectValue -/
  decodeLinkedData : GoMap → Except error linkedData
  /-- target `&result.LinkedData` of a MultiSelectValue -/
  decodeLinkedDataMap : GoMap → Except error (List (String × linkedData))

/-- The comparison `x != nil` on an `any`. -/
def Value.notNil : Value → Bool
  | .nil => false
  | _ => true

/-- The conversion `m, _ := x.(map[string]interface{})`: the nil map when it fails. -/
def Value.asMap : Value → GoMap
  | .map m => m
  | _ => []

/-- The loop `for i, d := range data` of the media-set branch of ParseValue, from
index `i` on, with the value `s` built so far. -/
def mediaSetLoop (ms : Mapstructure) (links : List Value) :
    List Value → Nat → MediaSetValue → Outcome PimProductValue
  | [], _, s => .ok (.mediaSet s)
  | d :: rest, i, s =>
    match d with
    | .string ds =>
      let s := { s with Data := s.Data ++ [ds] }
      match links[i]? with
      | none => .panic (.indexOutOfRange i links.length)
      | some (.map ll) =>
        match ms.decodeLinks ll with
        | .error e => .err e
        | .ok link => mediaSetLoop ms links rest (i + 1) { s with Links := s.Links ++ [some link] }
      | some _ => .err (error.New "invalid links elem,should be *Links")
    | _ => .err (error.New "invalid data elem,should be string")

/-- The loop `for _, item := range sd` of the price branch of ParseValue. -/
def priceLoop : List Value → List price → Outcome (List price)
  | [], acc => .ok acc
  | item :: rest, acc =>
    let pd := item.asMap
    match GoMap.index pd "currency" with
    | .string currency => priceLoop rest (acc ++ [{ Currency := currency, Amount := GoMap.index pd "amount" }])
    | _ => .panic .interfaceConversion

/-- Method ProductValue.ParseValue. -/
def ParseValue (ms : Mapstructure) (v : ProductValue) : Outcome PimProductValue :=
  if v.Links.notNil then
    match v.Data with
    | .strPtr p =>
      match v.Links with
      | .map link =>
        match ms.decodeLinksPtr link with
        | .error e => .err e
        | .ok l => .ok (.media { Locale := v.Locale, Scope := v.Scope, Data := p, Links := l })
      | _ => .err (error.New "invalid single links")
    | .slice data =>
      match v.Links with
      | .slice links => mediaSetLoop ms links data 0 {}
      | _ => .err (error.New "invalid  links slices,should be []interface\x7b\x7d")
    | _ => .err (error.New "invalid data,should be []interface\x7b\x7d")
  else if v.LinkedData.notNil then
    match v.Data with
    | .strPtr p =>
      match v.LinkedData with
      | .map ld =>
        match ms.decodeLinkedData ld with
        | .error e => .err e
        | .ok l => .ok (.simpleSelect { Locale := v.Locale, Scope := v.Scope, Data := p, LinkedData := l })
      | _ => .err (error.New "invalid linked data")
    | .strSlice xs =>
      match v.LinkedData with
      | .map ld =>
        match ms.decodeLinkedDataMap ld with
        | .error e => .err e
        | .ok l => .ok (.multiSelect { Locale := v.Locale, Scope := v.Scope, Data := xs, LinkedData := l })
      | _ => .err (error.New "invalid linked data")
    | _ => .err (error.Errorf "unknown linked data type %v" v)
  else
    match v.Data with
    | .strPtr p => .ok (.string { Locale := v.Locale, Scope := v.Scope, Data := p })
    | .strSlice xs => .ok (.stringCollection { Locale := v.Locale, Scope := v.Scope, Data := xs })
    | .boolPtr p => .ok (.boolean { Locale := v.Locale, Scope := v.Scope, Data := p })
    | .intPtr p => .ok (.number { Locale := v.Locale, Scope := v.Scope, Data := p })
    | .map d =>
      match GoMap.get d "unit" with
      | some unit =>
        match unit with
        | .string u =>
          .ok (.metric { Locale := v.Locale, Scope := v.Scope,
                         Data := { Unit := u, Amount := GoMap.index d "amount" } })
        | _ => .panic .interfaceConversion
      | none => .err (error.Errorf "unknown data type %v" v)
    | .slice sd =>
      match sd with
      | [] => .panic (.indexOutOfRange 0 0)
      | first :: _ =>
        match first with
        | .map d =>
          match GoMap.get d "currency" with
          | some _ =>
            match priceLoop sd [] with
            | .ok data => .ok (.price { Locale := v.Locale, Scope := v.Scope, Data := data })
            | .err e => .err e
            | .panic p => .panic p
          | none => .ok (.table { Locale := v.Locale, Scope := v.Scope, Data := sd.map Value.asMap })
        | _ => .err (error.New "invalid data, should be a slice of map")
    | _ => .err (error.Errorf "unknown data type %v" v)

/-- Function strconv.Itoa: the decimal rendering of an `int`. -/
def strconv.Itoa (i : Int) : String := toString i

/-- Method MetricValue.Amount. -/
def MetricValue.Amount (v : MetricValue) : String :=
  match v.Data.Amount with
  | .string f => f
  | .int i => strconv.Itoa i
  | _ => ""

/-- Method MetricValue.Unit. -/
def MetricValue.Unit (v : MetricValue) : String := v.Data.Unit

/-- The loop `for _, p := range v.Data` of PriceValue.Amount. -/
def priceAmountLoop (currency : String) : List price → String
  | [] => ""
  | p :: rest =>
    if p.Currency == currency then
      match p.Amount with
      | .string f => f
      | .int i => strconv.Itoa i
      | _ => ""
    else priceAmountLoop currency rest

/-- Method PriceValue.Amount. -/
def PriceValue.Amount (v : PriceValue) (currency : String) : String :=
  priceAmountLoop currency v.Data

/-! ## Encoding a variant as an envelope -/

/-- Modelled from the spec: the `_links` payload that encodes one link bundle. The
package has no encoder; the round trip of the spec speaks of "encoding a value of each of
the eleven variants into its corresponding envelope shape". The keys are the json names
of the fields of Links and Link. -/
def encodeLinks (l : Links) : GoMap :=
  [("self", .map [("href", .string l.Self.Href)]),
   ("first", .map [("href", .string l.First.Href)]),
   ("previous", .map [("href", .string l.Previous.Href)]),
   ("next", .map [("href", .string l.Next.Href)]),
   ("download", .map [("href", .string l.Download.Href)])]

/-- Modelled from the spec: the `linked_data` payload that encodes one label bundle
(the package has no encoder); the keys are the json names of the fields of linkedData. -/
def encodeLinkedData (ld : linkedData) : GoMap :=
  [("attribute", .string ld.Attribute), ("code", .string ld.Code),
   ("labels", .map (ld.Labels.map (fun kv => (kv.1, Value.string kv.2))))]

/-- Modelled from the spec: the envelope "of the corresponding shape" for each of the
eleven variants (the package has no encoder). Locale and scope are carried over, data
takes the dynamic type that ParseValue looks for, a media value puts its link bundle
under links (nothing when the pointer is nil), a select value puts its label bundles
under linkedData. -/
def encode : PimProductValue → ProductValue
  | .string v =>
    { Locale := v.Locale, Scope := v.Scope, Data := .strPtr v.Data, Links := .nil, LinkedData := .nil }
  | .stringCollection v =>
    { Locale := v.Locale, Scope := v.Scope, Data := .strSlice v.Data, Links := .nil, LinkedData := .nil }
  | .number v =>
    { Locale := v.Locale, Scope := v.Scope, Data := .intPtr v.Data, Links := .nil, LinkedData := .nil }
  | .boolean v =>
    { Locale := v.Locale, Scope := v.Scope, Data := .boolPtr v.Data, Links := .nil, LinkedData := .nil }
  | .metric v =>
    { Locale := v.Locale, Scope := v.Scope,
      Data := .map [("amount", v.Data.Amount), ("unit", .string v.Data.Unit)],
      Links := .nil, LinkedData := .nil }
  | .price v =>
    { Locale := v.Locale, Scope := v.Scope,
      Data := .slice (v.Data.map (fun p => Value.map [("amount", p.Amount), ("currency", .string p.Currency)])),
      Links := .nil, LinkedData := .nil }
  | .table v =>
    { Locale := v.Locale, Scope := v.Scope, Data := .slice (v.Data.map Value.map),
      Links := .nil, LinkedData := .nil }
  | .simpleSelect v =>
    { Locale := v.Locale, Scope := v.Scope, Data := .strPtr v.Data, Links := .nil,
      LinkedData := .map (encodeLinkedData v.LinkedData) }
  | .multiSelect v =>
    { Locale := v.Locale, Scope := v.Scope, Data := .strSlice v.Data, Links := .nil,
      LinkedData := .map (v.LinkedData.map (fun kv => (kv.1, Value.map (encodeLinkedData kv.2)))) }
  | .media v =>
    { Locale := v.Locale, Scope := v.Scope, Data := .strPtr v.Data,
      Links := match v.Links with
        | some l => .map (encodeLinks l)
        | none => .nil,
      LinkedData := .nil }
  | .mediaSet v =>
    { Locale := some v.Locale, Scope := some v.Scope,
      Data := .slice (v.Data.map Value.string),
      Links := .slice (v.Links.map (fun l =>
        match l with
        | some l => Value.map (encodeLinks l)
        | none => Value.nil)),
      LinkedData := .nil }

/-- The values for which decoding the encoded envelope gives the value back: the four
plain variants and the metric variant always; a price variant with at least one entry; a
table variant with at least one row whose first row has no `currency` key; a select
variant whose label bundles `mapstructure.Decode` reads back; a media variant with a link
bundle that `mapstructure.Decode` reads back; a media-collection variant with empty
locale and scope, as many link bundles as paths, each non-nil and read back. -/
def RoundTrips (ms : Mapstructure) : PimProductValue → Prop
  | .string _ => True
  | .stringCollection _ => True
  | .number _ => True
  | .boolean _ => True
  | .metric _ => True
  | .price v => v.Data ≠ []
  | .table v => ∃ m rest, v.Data = m :: rest ∧ GoMap.get m "currency" = none
  | .simpleSelect v => ms.decodeLinkedData (encodeLinkedData v.LinkedData) = .ok v.LinkedData
  | .multiSelect v =>
    ms.decodeLinkedDataMap (v.LinkedData.map (fun kv => (kv.1, Value.map (encodeLinkedData kv.2))))
      = .ok v.LinkedData
  | .media v => ∃ l, v.Links = some l ∧ ms.decodeLinksPtr (encodeLinks l) = .ok (some l)
  | .mediaSet v =>
    v.Locale = "" ∧ v.Scope = "" ∧
    ∃ ls : List Links, v.Links = ls.map some ∧ ls.length = v.Data.length ∧
      ∀ l ∈ ls, ms.decodeLinks (encodeLinks l) = .ok l

/-! ## akeneo.go: retries, download and upload -/

/-- The retry condition that createAndDoGetHeaders, download and upload add to the resty
client, on the status of a response: `r.StatusCode() == http.StatusTooManyRequests`. -/
def retryCondition (status : Nat) : Bool := status == 429

/-- Modelled from the spec: the retry loop inside resty's `Execute` (resty is a library,
its code is not among the sources). The spec says the executor "automatically retries
only on HTTP 429, up to a configurable retry count". `operation k` is the outcome of the
physical attempt number `k`; the loop runs attempts from `attempt` on, stops at the first
outcome for which `condition` is false or when `retries` retries are used up, and gives
the last outcome together with the number of the attempt after it. -/
def Backoff {ρ : Type} (condition : ρ → Bool) (operation : Nat → ρ) : Nat → Nat → ρ × Nat
  | 0, attempt => (operation attempt, attempt + 1)
  | retries + 1, attempt =>
    if condition (operation attempt) then Backoff condition operation retries (attempt + 1)
    else (operation attempt, attempt + 1)

/-- The world in which the resty client of createAndDoGetHeaders is configured with
`SetRetryCount(retryCNT)` and the retry condition above, and `upstream tick req k` is the
upstream's answer to physical attempt `k` of the request: what `Execute` leaves behind
is the outcome of the last attempt of the retry loop. -/
def Env.withRetries (env : Env) (retryCNT : Nat) (upstream : Nat → Request → Nat → HttpReply) : Env :=
  { env with
    http := fun tick req =>
      (Backoff (fun r => retryCondition r.status) (upstream tick req) retryCNT 0).1 }

/-- The number of physical attempts that `Execute` makes under `Env.withRetries`. -/
def attempts (retryCNT : Nat) (upstream : Nat → Request → Nat → HttpReply) (tick : Nat)
    (req : Request) : Nat :=
  (Backoff (fun r => retryCondition r.status) (upstream tick req) retryCNT 0).2

/-- The outcomes of the file-system calls of download, over a file-system state `δ`. -/
structure Os (δ : Type) where
  /-- the function filepath.Dir -/
  Dir : String → String
  /-- whether `os.Stat(dir)` fails with a not-exist error -/
  notExist : δ → String → Bool
  /-- the call `os.MkdirAll(dir, 0755)`: the state after it and its error -/
  MkdirAll : δ → String → δ × Option error
  /-- the call `os.Create(fp)`: the state after it and its error -/
  Create : δ → String → δ × Option error
  /-- the call `io.Copy(file, body)` into the file at `fp`: the state after it and its error -/
  Copy : δ → String → String → δ × Option error

/-- Method Client.download; the first component of the result is the file system after
the call. -/
def download {δ : Type} (env : Env) (os : Os δ) :
    Nat → String → String → World → δ → Run (δ × Option error)
  | 0, _, _, _, _ => .outOfFuel
  | n + 1, downloadURL, fp, w, d =>
    match AutoRefreshToken env n w with
    | .blocked w => .blocked w
    | .outOfFuel => .outOfFuel
    | .ret w (some err) => .ret w (d, some err)
    | .ret w none =>
      let req : Request :=
        { method := "GET", path := downloadURL, query := [], bearer := w.token, body := none }
      let reply := env.raw w.tick req
      let w := { w with tick := w.tick + 1,
                        trace := w.trace ++ [Event.limiterTake, Event.dispatch req] }
      match reply.err with
      | some err => .ret w (d, errors.Wrap (some err) "resty execute get error")
      | none =>
        if reply.status == 404 then
          .ret w (d, some (error.New ("file not found : " ++ downloadURL)))
        else if reply.IsError then
          match reply.unmarshal with
          | .error err => .ret w (d, errors.Wrap (some err) "unmarshal error")
          | .ok errResp =>
            .ret w (d, some (error.New ("request error :error Code: " ++ strconv.Itoa errResp.Code ++
              ", error message: " ++ errResp.Message)))
        else
          let dir := os.Dir fp
          let mk := if os.notExist d dir then os.MkdirAll d dir else (d, none)
          match mk.2 with
          | some err => .ret w (mk.1, errors.Wrap (some err) ("failed to create dir, path: " ++ dir))
          | none =>
            let cr := os.Create mk.1 fp
            match cr.2 with
            | some err => .ret w (cr.1, errors.Wrap (some err) ("failed to create file, path: " ++ fp))
            | none =>
              let cp := os.Copy cr.1 fp reply.body
              match cp.2 with
              | some err => .ret w (cp.1, errors.Wrap (some err) "failed to copy file")
              | none => .ret w (cp.1, none)

/-- Method http.Header.Get: the first value of the key, the empty string without one. -/
def http.Header.Get (h : http.Header) (key : String) : String :=
  match h.find? (fun kv => kv.1 == key) with
  | some (_, value :: _) => value
  | _ => ""

/-- Method Client.upload, for an endpoint that `url.Parse` accepts (the source discards
the parse error); the first component of the result is the returned string. -/
def upload (env : Env) : Nat → String → Payload → World → Run (String × Option error)
  | 0, _, _, _ => .outOfFuel
  | n + 1, endpoint, data, w =>
    match AutoRefreshToken env n w with
    | .blocked w => .blocked w
    | .outOfFuel => .outOfFuel
    | .ret w (some err) => .ret w ("", some err)
    | .ret w none =>
      let req : Request :=
        { method := "POST", path := endpoint, query := [], bearer := w.token, body := some data }
      let reply := env.raw w.tick req
      let w := { w with tick := w.tick + 1,
                        trace := w.trace ++ [Event.limiterTake, Event.dispatch req] }
      match reply.err with
      | some err => .ret w ("", errors.Wrap (some err) "resty execute post error")
      | none =>
        if reply.IsError then
          match reply.unmarshal with
          | .error err => .ret w ("", errors.Wrap (some err) "unmarshal error")
          | .ok errResp =>
            .ret w ("", some (error.New ("request error :error Code: " ++ strconv.Itoa errResp.Code ++
              ", error message: " ++ errResp.Message)))
        else .ret w (http.Header.Get reply.header "Location", none)

/-- The query that createAndDoGetHeaders sends, from the query of the parsed path and the
`opts` argument, or the error it returns for `opts`. -/
def optsQuery (query0 : url.Values) : Opts → Except error url.Values
  | .nil => .ok query0
  | .values v => .ok (mergeQuery query0 v)
  | .struct (.ok v) => .ok (mergeQuery query0 v)
  | .struct (.error err) => .error (error.Wrap err "unable to convert struct to url values")
  | .other => .error (error.New "opts must be a struct or a pointer to a struct or a url.Values")

/-! ## akeneo.go and default.go: client configuration -/

/-- Constant AkeneoPimVersion7 of default.go (`iota + 1`). -/
def AkeneoPimVersion7 : Int := 1
/-- Constant AkeneoPimVersion6 of default.go. -/
def AkeneoPimVersion6 : Int := 2
/-- Constant AkeneoPimVersion5 of default.go. -/
def AkeneoPimVersion5 : Int := 3
/-- Constant defaultVersion of default.go. -/
def defaultVersion : Int := AkeneoPimVersion6

/-- Variable pimVersionMap of default.go, as an association list. -/
def pimVersionMap : List (Int × String) :=
  [(AkeneoPimVersion7, "7.0"), (AkeneoPimVersion6, "6.0"), (AkeneoPimVersion5, "5.0")]

/-- Client of akeneo.go: the fields that validate reads. The field baseURL is a
`*url.URL`, `none` being the nil pointer. -/
structure Client where
  connector : Connector
  baseURL : Option String
  osVersion : Int
deriving DecidableEq, Repr

/-- Method Client.validate. -/
def Client.validate (c : Client) : Option error :=
  if c.baseURL.isNone then some (error.New "baseURL is nil")
  else if c.connector.ClientID == "" then some (error.New "clientID is empty")
  else if c.connector.Secret == "" then some (error.New "secret is empty")
  else if c.connector.UserName == "" then some (error.New "username is empty")
  else if c.connector.Password == "" then some (error.New "password is empty")
  else
    match pimVersionMap.lookup c.osVersion with
    | none => some (error.New ("invalid osVersion " ++ strconv.Itoa c.osVersion))
    | some _ => none

/-- The type Option of akeneo.go: a function applied to the client under construction. -/
abbrev ClientOption := Client → Client

/-- Function WithBaseURL, given what `url.Parse(u)` returns (nil when it fails). -/
def WithBaseURL (parsed : Option String) : ClientOption :=
  fun c => { c with baseURL := parsed }

/-- Function WithVersion. -/
def WithVersion (v : Int) : ClientOption :=
  fun c => { c with osVersion := v }

/-- The client that NewClient hands to validate: the connector, the default version, and
the options applied in order. -/
def configure (con : Connector) (opts : List ClientOption) : Client :=
  opts.foldl (fun c opt => opt c) { connector := con, baseURL := none, osVersion := defaultVersion }

/-- The map index expression `q[key]` with comma-ok on a url.Values. -/
def url.Values.lookup (q : url.Values) (key : String) : Option (List String) :=
  (q.find? (fun kv => kv.1 == key)).map (fun kv => kv.2)

/-- Whether a variant holds the given locale and scope. The media-collection variant
holds them as plain strings, to which a nil pointer corresponds as the empty string. -/
def PimProductValue.holds (pv : PimProductValue) (locale scope : Option String) : Prop :=
  match pv with
  | .media v => v.Locale = locale ∧ v.Scope = scope
  | .mediaSet v => v.Locale = locale.getD "" ∧ v.Scope = scope.getD ""
  | .string v => v.Locale = locale ∧ v.Scope = scope
  | .stringCollection v => v.Locale = locale ∧ v.Scope = scope
  | .number v => v.Locale = locale ∧ v.Scope = scope
  | .metric v => v.Locale = locale ∧ v.Scope = scope
  | .price v => v.Locale = locale ∧ v.Scope = scope
  | .boolean v => v.Locale = locale ∧ v.Scope = scope
  | .simpleSelect v => v.Locale = locale ∧ v.Scope = scope
  | .multiSelect v => v.Locale = locale ∧ v.Scope = scope
  | .table v => v.Locale = locale ∧ v.Scope = scope

/-! ## Several goroutines calling AutoRefreshToken on one session

Everything a caller of AutoRefreshToken does lies between `Lock` and `Unlock` of the one
mutex `authMu`, so the callers' bodies run one at a time, in the order in which the
callers acquire the mutex. A caller that finds the mutex held stays in `Lock`. -/

/-- Where one caller of AutoRefreshToken stands. -/
inductive Caller where
  /-- in `a.authMu.Lock()`, the mutex not yet acquired -/
  | waiting
  /-- returned, with the error returned and the token the session then holds -/
  | returned (err : Option error) (token : String)
  /-- parked for ever inside the call, the mutex still held -/
  | parked

/-- Whether the caller has returned from AutoRefreshToken. -/
def Caller.hasReturned : Caller → Bool
  | .returned _ _ => true
  | _ => false

/-- One session shared by several callers of AutoRefreshToken. -/
structure Shared where
  world : World
  callers : List Caller

/-- The scheduler lets caller `i` run: if it is waiting and the mutex is free it acquires
the mutex and runs its call; otherwise nothing changes. -/
def Shared.schedule (env : Env) (fuel : Nat) (s : Shared) (i : Nat) : Shared :=
  match s.callers[i]? with
  | some .waiting =>
    if s.world.authMu then s
    else
      match AutoRefreshToken env fuel s.world with
      | .ret w err => { world := w, callers := s.callers.set i (.returned err w.token) }
      | .blocked w => { world := w, callers := s.callers.set i .parked }
      | .outOfFuel => s
  | _ => s

/-- The run of `k` concurrent callers on the session `w`, scheduled in the given order. -/
def Shared.run (env : Env) (fuel : Nat) (w : World) (k : Nat) (order : List Nat) : Shared :=
  order.foldl (Shared.schedule env fuel) { world := w, callers := List.replicate k .waiting }

/-! ## Names used in the statements below -/

/-- A `mapstructure.Decode` for the examples: it accepts every map, reads the `href` of
the `self` and `download` links, and the `code` of a label bundle. -/
def exampleMapstructure : Mapstructure :=
  let href (m : GoMap) (key : String) : Link :=
    match GoMap.index (GoMap.index m key).asMap "href" with
    | .string h => { Href := h }
    | _ => {}
  let code (m : GoMap) : String :=
    match GoMap.index m "code" with
    | .string c => c
    | _ => ""
  { decodeLinksPtr := fun m => .ok (some { Self := href m "self", Download := href m "download" }),
    decodeLinks := fun m => .ok { Self := href m "self", Download := href m "download" },
    decodeLinkedData := fun m => .ok { Code := code m },
    decodeLinkedDataMap := fun m => .ok (m.map (fun kv => (kv.1, { Code := code kv.2.asMap }))) }


/-- The body GrantByPassword sends for the session `w`. -/
def passwordRequest (w : World) : authByPasswordRequest :=
  { GrantType := "password", Username := w.connector.UserName, Password := w.connector.Password }

/-- The upstream's answer to the password grant that GrantByPassword performs from `w`. -/
def passwordReply (env : Env) (w : World) : PasswordReply :=
  env.password w.tick w.connector.ClientID w.connector.Secret (passwordRequest w)

/-- The request GrantByRefreshToken dispatches for the session `w`. -/
def refreshRequest (w : World) : Request :=
  { method := "POST", path := authBasePath, query := [], bearer := w.token,
    body := some (Payload.refreshToken { GrantType := "refresh_token", RefreshToken := w.refreshToken }) }

/-- The upstream's answer to the refresh exchange that GrantByRefreshToken performs from
`w` (the clock is read once before it, by the token check in createAndDoGetHeaders). -/
def refreshReply (env : Env) (w : World) : HttpReply :=
  env.http (w.tick + 1) (refreshRequest w)

/-- The request that createAndDoGetHeaders hands to Execute for the session `w`. -/
def sentRequest (method path : String) (query : url.Values) (data : Option Payload) (w : World) :
    Request :=
  { method := method, path := path, query := query, bearer := w.token, body := data }

/-- The request that download hands to `Get` for the session `w`. -/
def downloadRequest (downloadURL : String) (w : World) : Request :=
  { method := "GET", path := downloadURL, query := [], bearer := w.token, body := none }

/-- The request that upload hands to `Post` for the session `w`. -/
def uploadRequest (endpoint : String) (data : Payload) (w : World) : Request :=
  { method := "POST", path := endpoint, query := [], bearer := w.token, body := some data }

/-- The line that createAndDoGetHeaders builds for one violation. -/
def violationLine (e : ValidationError) : String :=
  "Attribute '" ++ e.Attribute ++ "', property '" ++ e.Property ++ "': " ++ e.Message

/-- A file system for the examples: the list of files with their contents; every
directory exists and every call succeeds. -/
def exampleOs : Os (List (String × String)) :=
  { Dir := fun fp => fp,
    notExist := fun _ _ => false,
    MkdirAll := fun d _ => (d, none),
    Create := fun d fp => ((fp, "") :: d, none),
    Copy := fun d fp body => ((fp, body) :: d.filter (fun f => f.1 != fp), none) }

/-- An upstream for the examples, attempt by attempt: every request is answered 429 on
its first `r` attempts and 200 with a valid grant afterwards. -/
def exampleUpstream (r : Nat) : Nat → Request → Nat → HttpReply :=
  fun _ _ k =>
    if k < r then { status := 429, errResp := { Code := 429, Message := "Too Many Requests" } }
    else { status := 200, result := { AccessToken := "a", RefreshToken := "r", ExpiresIn := 3600 } }

/-- The range of an `int64`. -/
def isInt64 (x : Int) : Prop := -2 ^ 63 ≤ x ∧ x < 2 ^ 63

instance (x : Int) : Decidable (isInt64 x) := by
  unfold isInt64
  infer_instance

/-- Whether an event is an exchange with the upstream service. -/
def Event.isExchange : Event → Bool
  | .passwordExchange _ _ _ => true
  | .dispatch _ => true
  | .limiterTake => false

/-- A session for the examples: token "t0", refresh token "r0", expiry at instant 0. -/
def exampleWorld : World :=
  { connector := ⟨"id", "secret", "user", "pw"⟩, token := "t0", refreshToken := "r0",
    tokenExp := 0, authMu := false, tick := 0, trace := [] }

/-- An upstream for the examples: the clock stands at `now` and every exchange succeeds
with the grant `a`. -/
def exampleEnv (now : Int) (a : authResponse) : Env :=
  { clock := fun _ => now,
    password := fun _ _ _ _ => { result := a },
    http := fun _ _ => { result := a } }

/-! ## Token lifecycle -/

theorem wrap64_of_isInt64 (x : Int) (h : isInt64 x) : wrap64 x = x := by
  unfold isInt64 at h
  unfold wrap64
  norm_num at h ⊢
  omega

theorem validate_eq_none_iff (a : authResponse) :
    a.validate = none ↔ a.AccessToken ≠ "" ∧ a.RefreshToken ≠ "" ∧ a.ExpiresIn ≠ 0 := by
  unfold authResponse.validate
  by_cases h1 : a.AccessToken = "" <;> by_cases h2 : a.RefreshToken = "" <;>
    by_cases h3 : a.ExpiresIn = 0 <;> simp [h1, h2, h3]

theorem validate_isSome_of_missing (a : authResponse)
    (h : a.AccessToken = "" ∨ a.RefreshToken = "" ∨ a.ExpiresIn = 0) :
    a.validate = some (error.New "invalid auth response") := by
  unfold authResponse.validate
  rcases h with h | h | h <;> simp [h]

theorem AutoRefreshToken_fresh (env : Env) (n : Nat) (w : World)
    (hmu : w.authMu = false) (h : ShouldRefreshToken (env.clock w.tick) w = false) :
    AutoRefreshToken env (n + 1) w = .ret { w with tick := w.tick + 1 } none := by
  have h' : ShouldRefreshToken (env.clock w.tick)
      { w with authMu := true, tick := w.tick + 1 } = false := h
  cases w
  simp_all [AutoRefreshToken, ShouldRefreshToken]

theorem AutoRefreshToken_locked (env : Env) (n : Nat) (w : World) (hmu : w.authMu = true) :
    AutoRefreshToken env (n + 1) w = .blocked w := by
  simp [AutoRefreshToken, hmu]

theorem createAndDoGetHeaders_locked (env : Env) (n : Nat) (m : String) (r : RelPath) (o : Opts)
    (d : Option Payload) (w : World) (hmu : w.authMu = true) :
    createAndDoGetHeaders env (n + 2) m r o d w = .blocked w := by
  simp [createAndDoGetHeaders, AutoRefreshToken_locked env n w hmu]

theorem GrantByRefreshToken_locked (env : Env) (n : Nat) (w : World) (hmu : w.authMu = true) :
    GrantByRefreshToken env (n + 4) w = .blocked w := by
  simp [GrantByRefreshToken, POST, createAndDoGetHeaders_locked env n _ _ _ _ w hmu]

theorem AutoRefreshToken_stale (env : Env) (n : Nat) (w : World)
    (hmu : w.authMu = false) (h : ShouldRefreshToken (env.clock w.tick) w = true) :
    AutoRefreshToken env (n + 5) w = .blocked { w with authMu := true, tick := w.tick + 1 } := by
  have h' : ShouldRefreshToken (env.clock w.tick)
      { w with authMu := true, tick := w.tick + 1 } = true := h
  rw [AutoRefreshToken]
  simp only [hmu, h', Bool.false_eq_true, if_false, if_true]
  rw [GrantByRefreshToken_locked env n _ rfl]

/-- What GrantByRefreshToken does on a session whose token is still fresh: one exchange,
whose answer alone decides the outcome. -/
theorem GrantByRefreshToken_fresh (env : Env) (n : Nat) (w : World)
    (hmu : w.authMu = false) (hfresh : ShouldRefreshToken (env.clock w.tick) w = false) :
    GrantByRefreshToken env (n + 4) w =
      (let w1 : World := { w with tick := w.tick + 2,
                                  trace := w.trace ++ [Event.limiterTake, Event.dispatch (refreshRequest w)] }
       match (refreshReply env w).err with
       | some e => .ret w1 (some (error.Wrap (error.Wrap e "resty execute error") "POST error"))
       | none =>
         if (refreshReply env w).IsError then
           .ret w1 (some (error.Wrap (requestError (refreshReply env w).errResp) "POST error"))
         else
           match (refreshReply env w).result.validate with
           | some e => .ret w1 (some e)
           | none =>
             .ret { w1 with tick := w.tick + 3,
                            token := (refreshReply env w).result.AccessToken,
                            refreshToken := (refreshReply env w).result.RefreshToken,
                            tokenExp := env.clock (w.tick + 2) +
                              wrap64 ((refreshReply env w).result.ExpiresIn * time.Second) } none) := by
  simp only [GrantByRefreshToken, POST, createAndDoGetHeaders, AutoRefreshToken_fresh env n w hmu hfresh,
    RelPath.plain, refreshReply, refreshRequest]
  cases herr : (env.http (w.tick + 1) _).err with
  | some e => simp [herr, errors.Wrap]
  | none =>
    simp only [herr]
    by_cases hE : (env.http (w.tick + 1) (refreshRequest w)).IsError = true
    · simp [refreshRequest] at hE
      simp [hE, errors.Wrap]
    · simp [refreshRequest] at hE
      simp only [hE]
      cases hv : (env.http (w.tick + 1) _).result.validate <;> simp [hv, errors.Wrap]

/-- C1, as stated, fails: with `now + 5 minutes` exactly equal to the stored expiry
(now = 0, expiry = 300 s), ShouldRefreshToken answers false. -/
theorem ShouldRefreshToken_false_at_expiry_margin :
    (0 : Int) + 5 * time.Minute ≥ ({ exampleWorld with tokenExp := 300000000000 } : World).tokenExp ∧
    ShouldRefreshToken 0 { exampleWorld with tokenExp := 300000000000 } = false := by
  decide

/-- C1, amended: for every session state and every clock reading `now`,
ShouldRefreshToken is true if and only if `now + 5 minutes` is strictly after the stored
expiry; when the two are equal it is false. The margin is 300 seconds. -/
theorem ShouldRefreshToken_iff_after (now : Int) (w : World) :
    (ShouldRefreshToken now w = true ↔ now + 5 * time.Minute > w.tokenExp) ∧
    ShouldRefreshToken (w.tokenExp - 5 * time.Minute) w = false ∧
    5 * time.Minute = 300 * time.Second := by
  refine ⟨by simp [ShouldRefreshToken], by simp [ShouldRefreshToken], by decide⟩

/-- C2: what AutoRefreshToken does from a session whose mutex is free. If
ShouldRefreshToken is false it returns nil, performs no exchange and leaves the session
as it was (only the clock has been read). If ShouldRefreshToken is true it never
returns, whatever the upstream would answer: GrantByRefreshToken goes through POST and
createAndDoGetHeaders, which calls AutoRefreshToken again, and that call parks in `Lock`
on the mutex the outer call holds; no exchange is performed and the mutex stays held. -/
theorem AutoRefreshToken_decision (env : Env) (n : Nat) (w : World) (hmu : w.authMu = false) :
    (ShouldRefreshToken (env.clock w.tick) w = false →
      AutoRefreshToken env (n + 5) w = .ret { w with tick := w.tick + 1 } none) ∧
    (ShouldRefreshToken (env.clock w.tick) w = true →
      AutoRefreshToken env (n + 5) w = .blocked { w with authMu := true, tick := w.tick + 1 }) :=
  ⟨fun h => AutoRefreshToken_fresh env (n + 4) w hmu h, fun h => AutoRefreshToken_stale env n w hmu h⟩

/-- C2, at a concrete input: the session holds an expired token (expiry 0, clock 0) and
the upstream would answer both exchanges with a valid one-hour grant; the call parks with
the mutex held and an empty trace. -/
theorem AutoRefreshToken_decision_witness :
    exampleWorld.authMu = false ∧
    ShouldRefreshToken 0 exampleWorld = true ∧
    AutoRefreshToken (exampleEnv 0 { AccessToken := "a", RefreshToken := "r", ExpiresIn := 3600 }) 5 exampleWorld
      = .blocked { exampleWorld with authMu := true, tick := 1 } :=
  ⟨rfl, by decide,
   (AutoRefreshToken_decision
      (exampleEnv 0 { AccessToken := "a", RefreshToken := "r", ExpiresIn := 3600 }) 0 exampleWorld rfl).2
      (by decide)⟩

theorem ShouldRefreshToken_congr (now : Int) (w w' : World) (h : w'.tokenExp = w.tokenExp) :
    ShouldRefreshToken now w' = ShouldRefreshToken now w := by
  simp [ShouldRefreshToken, h]

theorem schedule_preserves (env : Env) (n : Nat) (w : World)
    (hstale : ∀ t, ShouldRefreshToken (env.clock t) w = true) (s : Shared) (i : Nat)
    (hexp : s.world.tokenExp = w.tokenExp) (htr : s.world.trace = w.trace)
    (hret : ∀ c ∈ s.callers, c.hasReturned = false) :
    (Shared.schedule env (n + 5) s i).world.tokenExp = w.tokenExp ∧
    (Shared.schedule env (n + 5) s i).world.trace = w.trace ∧
    (∀ c ∈ (Shared.schedule env (n + 5) s i).callers, c.hasReturned = false) ∧
    (Shared.schedule env (n + 5) s i).callers.length = s.callers.length := by
  unfold Shared.schedule
  cases hc : s.callers[i]? with
  | none => exact ⟨hexp, htr, hret, rfl⟩
  | some c =>
    cases c with
    | returned e t => exact ⟨hexp, htr, hret, rfl⟩
    | parked => exact ⟨hexp, htr, hret, rfl⟩
    | waiting =>
      by_cases hmu : s.world.authMu = true
      · simp only [hmu, if_true]
        exact ⟨hexp, htr, hret, trivial⟩
      · have hmu' : s.world.authMu = false := by simpa using hmu
        have hs : ShouldRefreshToken (env.clock s.world.tick) s.world = true := by
          rw [ShouldRefreshToken_congr _ w s.world hexp]; exact hstale _
        simp only [hmu', Bool.false_eq_true, if_false, AutoRefreshToken_stale env n s.world hmu' hs]
        refine ⟨hexp, htr, ?_, by simp⟩
        intro c hcmem
        rcases List.mem_or_eq_of_mem_set hcmem with h | h
        · exact hret c h
        · subst h; rfl

theorem run_preserves (env : Env) (n : Nat) (w : World)
    (hstale : ∀ t, ShouldRefreshToken (env.clock t) w = true) (order : List Nat) (s : Shared)
    (hexp : s.world.tokenExp = w.tokenExp) (htr : s.world.trace = w.trace)
    (hret : ∀ c ∈ s.callers, c.hasReturned = false) :
    (order.foldl (Shared.schedule env (n + 5)) s).world.trace = w.trace ∧
    (∀ c ∈ (order.foldl (Shared.schedule env (n + 5)) s).callers, c.hasReturned = false) ∧
    (order.foldl (Shared.schedule env (n + 5)) s).callers.length = s.callers.length := by
  induction order generalizing s with
  | nil => exact ⟨htr, hret, rfl⟩
  | cons i rest ih =>
    obtain ⟨h1, h2, h3, h4⟩ := schedule_preserves env n w hstale s i hexp htr hret
    simp only [List.foldl_cons]
    obtain ⟨g1, g2, g3⟩ := ih _ h1 h2 h3
    exact ⟨g1, g2, g3.trans h4⟩

/-- C3: `k` goroutines call AutoRefreshToken on one session (mutex free) for which
ShouldRefreshToken is true at every clock reading. Whatever the order in which they are
scheduled and whatever the upstream would answer, no exchange is ever performed (the
trace stays as it was) and none of the `k` callers returns: the first to acquire the
mutex parks in the nested `Lock` of its own refresh, the others stay in `Lock`. -/
theorem concurrent_callers_never_return (env : Env) (n : Nat) (w : World) (k : Nat)
    (order : List Nat) (hstale : ∀ t, ShouldRefreshToken (env.clock t) w = true) :
    (Shared.run env (n + 5) w k order).world.trace = w.trace ∧
    (∀ c ∈ (Shared.run env (n + 5) w k order).callers, c.hasReturned = false) ∧
    (Shared.run env (n + 5) w k order).callers.length = k := by
  have h := run_preserves env n w hstale order
    { world := w, callers := List.replicate k .waiting } rfl rfl
    (by intro c hc; rw [List.eq_of_mem_replicate hc]; rfl)
  exact ⟨h.1, h.2.1, by simpa using h.2.2⟩

/-- C3, at a concrete input: two callers on the expired example session, scheduled 0, 1,
0, 1, with an upstream that would grant a valid token: no exchange, nobody returned. -/
theorem concurrent_callers_never_return_witness :
    (∀ t, ShouldRefreshToken
        ((exampleEnv 0 { AccessToken := "a", RefreshToken := "r", ExpiresIn := 3600 }).clock t)
        exampleWorld = true) ∧
    (Shared.run (exampleEnv 0 { AccessToken := "a", RefreshToken := "r", ExpiresIn := 3600 }) 5
        exampleWorld 2 [0, 1, 0, 1]).world.trace = [] ∧
    (∀ c ∈ (Shared.run (exampleEnv 0 { AccessToken := "a", RefreshToken := "r", ExpiresIn := 3600 }) 5
        exampleWorld 2 [0, 1, 0, 1]).callers, c.hasReturned = false) :=
  have hs : ∀ t, ShouldRefreshToken
      ((exampleEnv 0 { AccessToken := "a", RefreshToken := "r", ExpiresIn := 3600 }).clock t)
      exampleWorld = true :=
    fun _ => (by decide : ShouldRefreshToken 0 exampleWorld = true)
  ⟨hs,
   (concurrent_callers_never_return _ 0 exampleWorld 2 [0, 1, 0, 1] hs).1,
   (concurrent_callers_never_return _ 0 exampleWorld 2 [0, 1, 0, 1] hs).2.1⟩

/-- What GrantByPassword does with a reply that passes every check: the grant is stored
and the expiry is the clock reading plus the 64-bit product of lifetime and time.Second. -/
theorem GrantByPassword_accept (env : Env) (w : World)
    (herr : (passwordReply env w).err = none)
    (hv : (passwordReply env w).result.validate = none)
    (hm : (passwordReply env w).errResp.Message = "") :
    GrantByPassword env w =
      ({ w with tick := w.tick + 2,
                trace := w.trace ++ [Event.passwordExchange w.connector.ClientID w.connector.Secret
                                       (passwordRequest w)],
                token := (passwordReply env w).result.AccessToken,
                refreshToken := (passwordReply env w).result.RefreshToken,
                tokenExp := env.clock (w.tick + 1) +
                  wrap64 ((passwordReply env w).result.ExpiresIn * time.Second) }, none) := by
  unfold passwordReply passwordRequest at *
  simp [GrantByPassword, herr, hv, hm]

/-- GrantByPassword rejects a reply that lacks a token or has lifetime zero, and then
leaves token, refresh token and expiry as they were. -/
theorem GrantByPassword_reject (env : Env) (w : World)
    (h : (passwordReply env w).result.AccessToken = "" ∨
         (passwordReply env w).result.RefreshToken = "" ∨
         (passwordReply env w).result.ExpiresIn = 0) :
    (∃ e, (GrantByPassword env w).2 = some e) ∧
    (GrantByPassword env w).1.token = w.token ∧
    (GrantByPassword env w).1.refreshToken = w.refreshToken ∧
    (GrantByPassword env w).1.tokenExp = w.tokenExp := by
  have hv := validate_isSome_of_missing _ h
  unfold passwordReply passwordRequest at *
  cases herr : (env.password w.tick w.connector.ClientID w.connector.Secret
      { GrantType := "password", Username := w.connector.UserName,
        Password := w.connector.Password }).err with
  | some e => simp [GrantByPassword, herr, errors.Wrap]
  | none => simp [GrantByPassword, herr, hv, errors.Wrap]

/-- GrantByRefreshToken on a fresh session rejects a reply that lacks a token or has
lifetime zero, and then leaves token, refresh token and expiry as they were. -/
theorem GrantByRefreshToken_reject (env : Env) (n : Nat) (w : World)
    (hmu : w.authMu = false) (hfresh : ShouldRefreshToken (env.clock w.tick) w = false)
    (h : (refreshReply env w).result.AccessToken = "" ∨
         (refreshReply env w).result.RefreshToken = "" ∨
         (refreshReply env w).result.ExpiresIn = 0) :
    ∃ w' e, GrantByRefreshToken env (n + 4) w = .ret w' (some e) ∧
      w'.token = w.token ∧ w'.refreshToken = w.refreshToken ∧ w'.tokenExp = w.tokenExp := by
  have hv := validate_isSome_of_missing _ h
  rw [GrantByRefreshToken_fresh env n w hmu hfresh]
  cases herr : (refreshReply env w).err with
  | some e => exact ⟨_, _, rfl, rfl, rfl, rfl⟩
  | none =>
    by_cases hE : (refreshReply env w).IsError = true
    · simp only [hE, if_true]
      exact ⟨_, _, rfl, rfl, rfl, rfl⟩
    · simp only [hE, hv]
      exact ⟨_, _, rfl, rfl, rfl, rfl⟩

/-- GrantByRefreshToken on a fresh session accepts a success reply that has both tokens
and a non-zero lifetime, and stores it. -/
theorem GrantByRefreshToken_accept (env : Env) (n : Nat) (w : World)
    (hmu : w.authMu = false) (hfresh : ShouldRefreshToken (env.clock w.tick) w = false)
    (herr : (refreshReply env w).err = none) (hE : (refreshReply env w).IsError = false)
    (hv : (refreshReply env w).result.validate = none) :
    GrantByRefreshToken env (n + 4) w =
      .ret { w with tick := w.tick + 3,
                    trace := w.trace ++ [Event.limiterTake, Event.dispatch (refreshRequest w)],
                    token := (refreshReply env w).result.AccessToken,
                    refreshToken := (refreshReply env w).result.RefreshToken,
                    tokenExp := env.clock (w.tick + 2) +
                      wrap64 ((refreshReply env w).result.ExpiresIn * time.Second) } none := by
  rw [GrantByRefreshToken_fresh env n w hmu hfresh]
  simp [herr, hE, hv]

/-- C4, as stated, fails: a reply with both tokens and lifetime -1 is not rejected;
GrantByPassword returns nil and stores the grant, with an expiry one second in the past. -/
theorem negative_lifetime_accepted :
    authResponse.validate { AccessToken := "a", RefreshToken := "r", ExpiresIn := -1 } = none ∧
    GrantByPassword (exampleEnv 0 { AccessToken := "a", RefreshToken := "r", ExpiresIn := -1 }) exampleWorld
      = ({ exampleWorld with
            tick := 2,
            trace := [Event.passwordExchange "id" "secret"
                        { GrantType := "password", Username := "user", Password := "pw" }],
            token := "a", refreshToken := "r", tokenExp := -1000000000 }, none) := by
  constructor <;> rfl

/-- C4, amended: a grant response is rejected (the grant returns an error and token,
refresh token and expiry stay as they were) whenever its access token is empty, or its
refresh token is empty, or its lifetime is zero; a response with both tokens non-empty
and a non-zero lifetime, negative ones included, passes validation and is stored by
GrantByPassword (the exchange returned no error and left the error target empty) and by
GrantByRefreshToken (the exchange returned no error and a non-error status). For
GrantByRefreshToken the session is one whose token is still fresh when the request
helper checks it. -/
theorem grant_response_validation (env : Env) (n : Nat) (w : World)
    (hmu : w.authMu = false) (hfresh : ShouldRefreshToken (env.clock w.tick) w = false) :
    (∀ a : authResponse,
      a.validate = none ↔ a.AccessToken ≠ "" ∧ a.RefreshToken ≠ "" ∧ a.ExpiresIn ≠ 0) ∧
    (((passwordReply env w).result.AccessToken = "" ∨ (passwordReply env w).result.RefreshToken = "" ∨
        (passwordReply env w).result.ExpiresIn = 0) →
      (∃ e, (GrantByPassword env w).2 = some e) ∧
      (GrantByPassword env w).1.token = w.token ∧
      (GrantByPassword env w).1.refreshToken = w.refreshToken ∧
      (GrantByPassword env w).1.tokenExp = w.tokenExp) ∧
    ((passwordReply env w).err = none → (passwordReply env w).errResp.Message = "" →
      (passwordReply env w).result.AccessToken ≠ "" → (passwordReply env w).result.RefreshToken ≠ "" →
      (passwordReply env w).result.ExpiresIn ≠ 0 →
      (GrantByPassword env w).2 = none ∧
      (GrantByPassword env w).1.token = (passwordReply env w).result.AccessToken ∧
      (GrantByPassword env w).1.refreshToken = (passwordReply env w).result.RefreshToken ∧
      (GrantByPassword env w).1.tokenExp =
        env.clock (w.tick + 1) + wrap64 ((passwordReply env w).result.ExpiresIn * time.Second)) ∧
    (((refreshReply env w).result.AccessToken = "" ∨ (refreshReply env w).result.RefreshToken = "" ∨
        (refreshReply env w).result.ExpiresIn = 0) →
      ∃ w' e, GrantByRefreshToken env (n + 4) w = .ret w' (some e) ∧
        w'.token = w.token ∧ w'.refreshToken = w.refreshToken ∧ w'.tokenExp = w.tokenExp) ∧
    ((refreshReply env w).err = none → (refreshReply env w).IsError = false →
      (refreshReply env w).result.AccessToken ≠ "" → (refreshReply env w).result.RefreshToken ≠ "" →
      (refreshReply env w).result.ExpiresIn ≠ 0 →
      ∃ w', GrantByRefreshToken env (n + 4) w = .ret w' none ∧
        w'.token = (refreshReply env w).result.AccessToken ∧
        w'.refreshToken = (refreshReply env w).result.RefreshToken ∧
        w'.tokenExp =
          env.clock (w.tick + 2) + wrap64 ((refreshReply env w).result.ExpiresIn * time.Second)) := by
  refine ⟨validate_eq_none_iff, GrantByPassword_reject env w, ?_,
    GrantByRefreshToken_reject env n w hmu hfresh, ?_⟩
  · intro herr hm h1 h2 h3
    rw [GrantByPassword_accept env w herr ((validate_eq_none_iff _).2 ⟨h1, h2, h3⟩) hm]
    exact ⟨rfl, rfl, rfl, rfl⟩
  · intro herr hE h1 h2 h3
    rw [GrantByRefreshToken_accept env n w hmu hfresh herr hE ((validate_eq_none_iff _).2 ⟨h1, h2, h3⟩)]
    exact ⟨_, rfl, rfl, rfl, rfl⟩

/-- C4, amended, at a concrete input: on a fresh session (expiry 10000 s, clock 0) an
upstream that grants lifetime -1 is accepted by GrantByRefreshToken, which stores the
tokens with an expiry of -1 s. -/
theorem grant_response_validation_witness :
    ({ exampleWorld with tokenExp := 10000000000000 } : World).authMu = false ∧
    ShouldRefreshToken 0 { exampleWorld with tokenExp := 10000000000000 } = false ∧
    ∃ w', GrantByRefreshToken (exampleEnv 0 { AccessToken := "a", RefreshToken := "r", ExpiresIn := -1 }) 4
        { exampleWorld with tokenExp := 10000000000000 } = .ret w' none ∧
      w'.token = "a" ∧ w'.refreshToken = "r" ∧ w'.tokenExp = 0 + wrap64 (-1 * time.Second) :=
  ⟨rfl, by decide,
   (grant_response_validation (exampleEnv 0 { AccessToken := "a", RefreshToken := "r", ExpiresIn := -1 }) 0
      { exampleWorld with tokenExp := 10000000000000 } rfl (by decide)).2.2.2.2
      rfl rfl (by decide) (by decide) (by decide)⟩

/-- While lifetime times time.Second fits in 64 bits (lifetimes up to 9223372036 s), a
grant accepted by GrantByPassword stores the expiry `t + L` seconds, `t` being the clock
reading of the grant, and for `L > 300` ShouldRefreshToken at `t` is false. -/
theorem grant_expiry_in_range (env : Env) (w : World)
    (herr : (passwordReply env w).err = none)
    (hm : (passwordReply env w).errResp.Message = "")
    (h1 : (passwordReply env w).result.AccessToken ≠ "")
    (h2 : (passwordReply env w).result.RefreshToken ≠ "")
    (hlo : 300 < (passwordReply env w).result.ExpiresIn)
    (hhi : (passwordReply env w).result.ExpiresIn ≤ 9223372036) :
    (GrantByPassword env w).2 = none ∧
    (GrantByPassword env w).1.tokenExp =
      env.clock (w.tick + 1) + (passwordReply env w).result.ExpiresIn * time.Second ∧
    ShouldRefreshToken (env.clock (w.tick + 1)) (GrantByPassword env w).1 = false := by
  have h3 : (passwordReply env w).result.ExpiresIn ≠ 0 := by omega
  have hw : wrap64 ((passwordReply env w).result.ExpiresIn * time.Second)
      = (passwordReply env w).result.ExpiresIn * time.Second := by
    apply wrap64_of_isInt64
    unfold isInt64 time.Second
    constructor <;> norm_num <;> omega
  rw [GrantByPassword_accept env w herr ((validate_eq_none_iff _).2 ⟨h1, h2, h3⟩) hm]
  refine ⟨rfl, by simp [hw], ?_⟩
  simp only [ShouldRefreshToken, hw, decide_eq_false_iff_not, not_lt]
  unfold time.Minute time.Second
  omega

theorem grant_expiry_in_range_witness :
    (GrantByPassword (exampleEnv 7 { AccessToken := "a", RefreshToken := "r", ExpiresIn := 3600 })
        exampleWorld).1.tokenExp = 7 + 3600 * time.Second ∧
    ShouldRefreshToken 7
      (GrantByPassword (exampleEnv 7 { AccessToken := "a", RefreshToken := "r", ExpiresIn := 3600 })
        exampleWorld).1 = false :=
  (grant_expiry_in_range (exampleEnv 7 { AccessToken := "a", RefreshToken := "r", ExpiresIn := 3600 })
    exampleWorld rfl rfl (by decide) (by decide) (by decide) (by decide)).2

/-- C5: a grant with the 64-bit lifetime 9223372037 s, performed at clock reading 0 and
accepted by GrantByPassword (and likewise by GrantByRefreshToken on a fresh session),
does not store the expiry `0 + 9223372037 s`: the product with time.Second wraps around
to -9223372036709551616 ns, the stored expiry lies in the past, and ShouldRefreshToken
evaluated at the time of the grant is true although the lifetime exceeds 300 s. -/
theorem lifetime_overflow_expiry :
    isInt64 9223372037 ∧ (300 : Int) < 9223372037 ∧
    GrantByPassword (exampleEnv 0 { AccessToken := "a", RefreshToken := "r", ExpiresIn := 9223372037 })
        exampleWorld
      = ({ exampleWorld with
            tick := 2,
            trace := [Event.passwordExchange "id" "secret"
                        { GrantType := "password", Username := "user", Password := "pw" }],
            token := "a", refreshToken := "r", tokenExp := -9223372036709551616 }, none) ∧
    (0 : Int) + 9223372037 * time.Second ≠ -9223372036709551616 ∧
    ShouldRefreshToken 0
      (GrantByPassword (exampleEnv 0 { AccessToken := "a", RefreshToken := "r", ExpiresIn := 9223372037 })
        exampleWorld).1 = true ∧
    GrantByRefreshToken (exampleEnv 0 { AccessToken := "a", RefreshToken := "r", ExpiresIn := 9223372037 }) 4
        { exampleWorld with tokenExp := 10000000000000 }
      = .ret { exampleWorld with
            tick := 3,
            trace := [Event.limiterTake, Event.dispatch (refreshRequest exampleWorld)],
            token := "a", refreshToken := "r", tokenExp := -9223372036709551616 } none := by
  refine ⟨by decide, by decide, rfl, by decide, by decide, rfl⟩

theorem notNil_eq_true_iff (x : Value) : x.notNil = true ↔ x ≠ Value.nil := by
  cases x <;> simp [Value.notNil]

theorem notNil_eq_false_iff (x : Value) : x.notNil = false ↔ x = Value.nil := by
  cases x <;> simp [Value.notNil]

/-- The media-set loop ends in a media-set variant, a returned error, or the
out-of-range panic of `links[i]`. -/
theorem mediaSetLoop_outcome (ms : Mapstructure) (links : List Value) (data : List Value) :
    ∀ (i : Nat) (s : MediaSetValue),
      (∃ s', mediaSetLoop ms links data i s = .ok (.mediaSet s')) ∨
      (∃ e, mediaSetLoop ms links data i s = .err e) ∨
      (∃ j n, mediaSetLoop ms links data i s = .panic (.indexOutOfRange j n)) := by
  induction data with
  | nil => intro i s; exact Or.inl ⟨s, rfl⟩
  | cons d rest ih =>
    intro i s
    cases d with
    | string ds =>
      simp only [mediaSetLoop]
      cases hl : links[i]? with
      | none => exact Or.inr (Or.inr ⟨_, _, rfl⟩)
      | some l =>
        cases l with
        | map ll =>
          simp only
          cases hd : ms.decodeLinks ll with
          | error e => exact Or.inr (Or.inl ⟨_, rfl⟩)
          | ok link => exact ih _ _
        | _ => exact Or.inr (Or.inl ⟨_, rfl⟩)
    | _ => exact Or.inr (Or.inl ⟨_, rfl⟩)

/-- C7: for every envelope in which links is present (linkedData present or not),
ParseValue yields the single-media variant, or the media-collection variant, or no
variant at all (a returned error, or the out-of-range panic of `links[i]`); so a variant
it returns is never a select variant nor a data-shape variant: its ValueType is
ValueTypeMedia or ValueTypeMediaSet. -/
theorem ParseValue_links_present (ms : Mapstructure) (v : ProductValue) (h : v.Links ≠ Value.nil) :
    ((∃ m, ParseValue ms v = .ok (.media m)) ∨
     (∃ s, ParseValue ms v = .ok (.mediaSet s)) ∨
     (∃ e, ParseValue ms v = .err e) ∨
     (∃ i n, ParseValue ms v = .panic (.indexOutOfRange i n))) ∧
    (∀ pv, ParseValue ms v = .ok pv →
      pv.ValueType = ValueTypeMedia ∨ pv.ValueType = ValueTypeMediaSet) := by
  have key : (∃ m, ParseValue ms v = .ok (.media m)) ∨
     (∃ s, ParseValue ms v = .ok (.mediaSet s)) ∨
     (∃ e, ParseValue ms v = .err e) ∨
     (∃ i n, ParseValue ms v = .panic (.indexOutOfRange i n)) := by
    have hn := (notNil_eq_true_iff v.Links).2 h
    obtain ⟨loc, sc, data, links, ld⟩ := v
    simp only at hn h
    simp only [ParseValue, hn, if_true]
    cases data with
    | strPtr p =>
      cases links with
      | map link =>
        simp only
        cases hd : ms.decodeLinksPtr link with
        | error e => exact Or.inr (Or.inr (Or.inl ⟨_, rfl⟩))
        | ok l => exact Or.inl ⟨_, rfl⟩
      | _ => exact Or.inr (Or.inr (Or.inl ⟨_, rfl⟩))
    | slice xs =>
      cases links with
      | slice ls =>
        simp only
        rcases mediaSetLoop_outcome ms ls xs 0 {} with hh | hh | hh
        · exact Or.inr (Or.inl hh)
        · exact Or.inr (Or.inr (Or.inl hh))
        · exact Or.inr (Or.inr (Or.inr hh))
      | _ => exact Or.inr (Or.inr (Or.inl ⟨_, rfl⟩))
    | _ => exact Or.inr (Or.inr (Or.inl ⟨_, rfl⟩))
  refine ⟨key, ?_⟩
  intro pv hpv
  rcases key with ⟨m, hm⟩ | ⟨s, hs⟩ | ⟨e, he⟩ | ⟨i, n, hp⟩
  · rw [hm] at hpv; cases hpv; exact Or.inl rfl
  · rw [hs] at hpv; cases hpv; exact Or.inr rfl
  · rw [he] at hpv; cases hpv
  · rw [hp] at hpv; cases hpv

/-- C7, at a concrete input: links and linkedData are both present and data is a
`*string`; the result is the single-media variant, not a select variant. -/
theorem ParseValue_links_present_witness :
    ParseValue exampleMapstructure
        { Locale := none, Scope := none, Data := .strPtr (some "a.png"),
          Links := .map [("download", .map [("href", .string "http://x/a.png")])],
          LinkedData := .map [("code", .string "red")] }
      = .ok (.media { Locale := none, Scope := none, Data := some "a.png",
                      Links := some { Download := { Href := "http://x/a.png" } } }) ∧
    ∀ pv, ParseValue exampleMapstructure
        { Locale := none, Scope := none, Data := .strPtr (some "a.png"),
          Links := .map [("download", .map [("href", .string "http://x/a.png")])],
          LinkedData := .map [("code", .string "red")] } = .ok pv →
      pv.ValueType = ValueTypeMedia ∨ pv.ValueType = ValueTypeMediaSet :=
  ⟨rfl, (ParseValue_links_present exampleMapstructure _ (by simp)).2⟩

/-- The part of C8 that holds: `n` strings in data and `n` maps in links, each of which
decodes, give the media-collection variant that pairs the i-th string with the i-th
decoded link bundle. -/
theorem mediaSetLoop_zip (ms : Mapstructure) :
    ∀ (ds : List String) (ls : List GoMap) (dec : List Links) (pre : List Value) (s : MediaSetValue),
      List.Forall₂ (fun l d => ms.decodeLinks l = .ok d) ls dec → ds.length = ls.length →
      mediaSetLoop ms (pre ++ ls.map Value.map) (ds.map Value.string) pre.length s
        = .ok (.mediaSet { s with Data := s.Data ++ ds, Links := s.Links ++ dec.map some }) := by
  intro ds
  induction ds with
  | nil =>
    intro ls dec pre s hdec hlen
    cases ls with
    | nil => cases hdec; simp [mediaSetLoop]
    | cons l ls => simp at hlen
  | cons d ds ih =>
    intro ls dec pre s hdec hlen
    cases hdec with
    | nil => simp at hlen
    | @cons l dl ls' dec' hl hrest =>
      have hget : (pre ++ List.map Value.map (l :: ls'))[pre.length]? = some (Value.map l) := by
        rw [List.getElem?_append_right (le_refl _)]
        simp
      have happ : pre ++ List.map Value.map (l :: ls') = (pre ++ [Value.map l]) ++ List.map Value.map ls' := by
        simp
      simp only [List.map_cons, mediaSetLoop]
      rw [← List.map_cons, hget]
      simp only [hl]
      have hlen' : ds.length = ls'.length := by simpa using hlen
      have := ih ls' dec' (pre ++ [Value.map l])
        { s with Data := s.Data ++ [d], Links := s.Links ++ [some dl] } hrest hlen'
      rw [happ]
      simp only [List.length_append, List.length_singleton] at this
      rw [this]
      simp

theorem ParseValue_media_collection (ms : Mapstructure) (v : ProductValue)
    (ds : List String) (ls : List GoMap) (dec : List Links)
    (hdata : v.Data = .slice (ds.map Value.string)) (hlinks : v.Links = .slice (ls.map Value.map))
    (hlen : ds.length = ls.length)
    (hdec : List.Forall₂ (fun l d => ms.decodeLinks l = .ok d) ls dec) :
    ParseValue ms v = .ok (.mediaSet { Data := ds, Links := dec.map some }) ∧
    dec.length = ds.length := by
  obtain ⟨loc, sc, data, links, ld⟩ := v
  simp only at hdata hlinks
  subst hdata hlinks
  have := mediaSetLoop_zip ms ds ls dec [] {} hdec hlen
  simp only [List.nil_append, List.length_nil] at this
  simp only [ParseValue, Value.notNil, if_true, this]
  exact ⟨by simp, by rw [← hdec.length_eq, hlen]⟩

theorem ParseValue_media_collection_witness :
    ParseValue exampleMapstructure
        { Locale := none, Scope := none,
          Data := .slice [.string "a.png", .string "b.png"],
          Links := .slice [.map [("download", .map [("href", .string "http://x/a")])],
                           .map [("download", .map [("href", .string "http://x/b")])]],
          LinkedData := .nil }
      = .ok (.mediaSet { Data := ["a.png", "b.png"],
                         Links := [some { Download := { Href := "http://x/a" } },
                                   some { Download := { Href := "http://x/b" } }] }) :=
  (ParseValue_media_collection exampleMapstructure _ ["a.png", "b.png"]
    [[("download", .map [("href", .string "http://x/a")])],
     [("download", .map [("href", .string "http://x/b")])]]
    [{ Download := { Href := "http://x/a" } }, { Download := { Href := "http://x/b" } }]
    rfl rfl rfl (.cons rfl (.cons rfl .nil))).1

/-- C8: with links present and data a sequence of strings, a length mismatch is not
reported as an error. Links shorter than data (two paths, one link bundle): ParseValue
panics with index out of range [1] with length 1. Links longer than data (one path, two
link bundles): ParseValue returns a media-collection variant with one path and one link
bundle, the second bundle dropped, and no error. -/
theorem ParseValue_media_length_mismatch :
    ParseValue exampleMapstructure
        { Locale := none, Scope := none,
          Data := .slice [.string "a.png", .string "b.png"],
          Links := .slice [.map [("download", .map [("href", .string "http://x/a")])]],
          LinkedData := .nil }
      = .panic (.indexOutOfRange 1 1) ∧
    ParseValue exampleMapstructure
        { Locale := none, Scope := none,
          Data := .slice [.string "a.png"],
          Links := .slice [.map [("download", .map [("href", .string "http://x/a")])],
                           .map [("download", .map [("href", .string "http://x/b")])]],
          LinkedData := .nil }
      = .ok (.mediaSet { Data := ["a.png"],
                         Links := [some { Download := { Href := "http://x/a" } }] }) :=
  ⟨rfl, rfl⟩

/-- C9: for every envelope with links absent and linkedData present. If data is a
`*string`, ParseValue decodes linkedData (a map) as one label bundle and yields the
single-select variant with the envelope's locale, scope and data and that bundle. If
data is a `[]string`, it decodes linkedData as a mapping from code to label bundle and
yields the multi-select variant likewise. In both cases the decoder's error is returned
if the decoding fails, and an error is returned if linkedData is not a map. For every
other shape of data ParseValue returns an error. -/
theorem ParseValue_select (ms : Mapstructure) (v : ProductValue)
    (hl : v.Links = Value.nil) (hld : v.LinkedData ≠ Value.nil) :
    (∀ p, v.Data = .strPtr p →
      (∀ ld l, v.LinkedData = .map ld → ms.decodeLinkedData ld = .ok l →
        ParseValue ms v = .ok (.simpleSelect
          { Locale := v.Locale, Scope := v.Scope, Data := p, LinkedData := l })) ∧
      (∀ ld e, v.LinkedData = .map ld → ms.decodeLinkedData ld = .error e →
        ParseValue ms v = .err e) ∧
      ((∀ ld, v.LinkedData ≠ .map ld) → ParseValue ms v = .err (error.New "invalid linked data"))) ∧
    (∀ xs, v.Data = .strSlice xs →
      (∀ ld l, v.LinkedData = .map ld → ms.decodeLinkedDataMap ld = .ok l →
        ParseValue ms v = .ok (.multiSelect
          { Locale := v.Locale, Scope := v.Scope, Data := xs, LinkedData := l })) ∧
      (∀ ld e, v.LinkedData = .map ld → ms.decodeLinkedDataMap ld = .error e →
        ParseValue ms v = .err e) ∧
      ((∀ ld, v.LinkedData ≠ .map ld) → ParseValue ms v = .err (error.New "invalid linked data"))) ∧
    ((∀ p, v.Data ≠ .strPtr p) → (∀ xs, v.Data ≠ .strSlice xs) →
      ParseValue ms v = .err (error.Errorf "unknown linked data type %v" v)) := by
  have hn1 := (notNil_eq_false_iff v.Links).2 hl
  have hn2 := (notNil_eq_true_iff v.LinkedData).2 hld
  obtain ⟨loc, sc, data, links, ld⟩ := v
  simp only at hl hld hn1 hn2
  refine ⟨?_, ?_, ?_⟩
  · intro p hp
    simp only at hp
    subst hp
    refine ⟨?_, ?_, ?_⟩
    · intro m l hm hd
      simp only at hm
      subst hm
      simp [ParseValue, hn1, hn2, hd]
    · intro m e hm hd
      simp only at hm
      subst hm
      simp [ParseValue, hn1, hn2, hd]
    · intro hnot
      simp only at hnot
      cases ld <;> simp_all [ParseValue]
  · intro xs hp
    simp only at hp
    subst hp
    refine ⟨?_, ?_, ?_⟩
    · intro m l hm hd
      simp only at hm
      subst hm
      simp [ParseValue, hn1, hn2, hd]
    · intro m e hm hd
      simp only at hm
      subst hm
      simp [ParseValue, hn1, hn2, hd]
    · intro hnot
      simp only at hnot
      cases ld <;> simp_all [ParseValue]
  · intro h1 h2
    simp only at h1 h2
    cases data <;> simp_all [ParseValue]

/-- C9, at concrete inputs: a single-select and a multi-select envelope. -/
theorem ParseValue_select_witness :
    ParseValue exampleMapstructure
        { Locale := some "en_US", Scope := none, Data := .strPtr (some "red"),
          Links := .nil, LinkedData := .map [("code", .string "red")] }
      = .ok (.simpleSelect { Locale := some "en_US", Scope := none, Data := some "red",
                             LinkedData := { Code := "red" } }) ∧
    ParseValue exampleMapstructure
        { Locale := none, Scope := some "web", Data := .strSlice ["red", "blue"],
          Links := .nil, LinkedData := .map [("red", .map [("code", .string "red")])] }
      = .ok (.multiSelect { Locale := none, Scope := some "web", Data := ["red", "blue"],
                            LinkedData := [("red", { Code := "red" })] }) :=
  ⟨((ParseValue_select exampleMapstructure
        { Locale := some "en_US", Scope := none, Data := .strPtr (some "red"),
          Links := .nil, LinkedData := .map [("code", .string "red")] } rfl (by simp)).1
      (some "red") rfl).1 [("code", .string "red")] { Code := "red" } rfl rfl,
   ((ParseValue_select exampleMapstructure
        { Locale := none, Scope := some "web", Data := .strSlice ["red", "blue"],
          Links := .nil, LinkedData := .map [("red", .map [("code", .string "red")])] } rfl (by simp)).2.1
      ["red", "blue"] rfl).1 [("red", .map [("code", .string "red")])] [("red", { Code := "red" })] rfl rfl⟩

/-- C10: for every envelope with neither links nor linkedData: data that is a `*string`
decodes to the plain-text variant, a `[]string` to the text-collection variant, a `*bool`
to the boolean variant and a `*int` to the number variant; the variant carries the
envelope's locale, scope and data unchanged, and the ValueType tags of the four variants
are ValueTypeString = 1, ValueTypeStringCollection = 2, ValueTypeBoolean = 6 and
ValueTypeNumber = 3. -/
theorem ParseValue_plain (ms : Mapstructure) (v : ProductValue)
    (hl : v.Links = Value.nil) (hld : v.LinkedData = Value.nil) :
    (∀ p, v.Data = .strPtr p →
      ParseValue ms v = .ok (.string { Locale := v.Locale, Scope := v.Scope, Data := p })) ∧
    (∀ xs, v.Data = .strSlice xs →
      ParseValue ms v = .ok (.stringCollection { Locale := v.Locale, Scope := v.Scope, Data := xs })) ∧
    (∀ p, v.Data = .boolPtr p →
      ParseValue ms v = .ok (.boolean { Locale := v.Locale, Scope := v.Scope, Data := p })) ∧
    (∀ p, v.Data = .intPtr p →
      ParseValue ms v = .ok (.number { Locale := v.Locale, Scope := v.Scope, Data := p })) ∧
    (∀ x, (PimProductValue.string x).ValueType = ValueTypeString ∧ ValueTypeString = 1) ∧
    (∀ x, (PimProductValue.stringCollection x).ValueType = ValueTypeStringCollection ∧
      ValueTypeStringCollection = 2) ∧
    (∀ x, (PimProductValue.boolean x).ValueType = ValueTypeBoolean ∧ ValueTypeBoolean = 6) ∧
    (∀ x, (PimProductValue.number x).ValueType = ValueTypeNumber ∧ ValueTypeNumber = 3) := by
  obtain ⟨loc, sc, data, links, ld⟩ := v
  simp only at hl hld
  subst hl hld
  refine ⟨?_, ?_, ?_, ?_, fun _ => ⟨rfl, rfl⟩, fun _ => ⟨rfl, rfl⟩, fun _ => ⟨rfl, rfl⟩,
    fun _ => ⟨rfl, rfl⟩⟩ <;>
  · intro p hp
    simp only at hp
    subst hp
    rfl

/-- C10, at concrete inputs: one envelope of each of the four shapes. -/
theorem ParseValue_plain_witness :
    ParseValue exampleMapstructure
        { Locale := some "en_US", Scope := some "web", Data := .strPtr (some "hello"),
          Links := .nil, LinkedData := .nil }
      = .ok (.string { Locale := some "en_US", Scope := some "web", Data := some "hello" }) ∧
    ParseValue exampleMapstructure
        { Locale := none, Scope := none, Data := .strSlice ["a", "b"], Links := .nil, LinkedData := .nil }
      = .ok (.stringCollection { Locale := none, Scope := none, Data := ["a", "b"] }) ∧
    ParseValue exampleMapstructure
        { Locale := none, Scope := none, Data := .boolPtr (some true), Links := .nil, LinkedData := .nil }
      = .ok (.boolean { Locale := none, Scope := none, Data := some true }) ∧
    ParseValue exampleMapstructure
        { Locale := none, Scope := none, Data := .intPtr (some 42), Links := .nil, LinkedData := .nil }
      = .ok (.number { Locale := none, Scope := none, Data := some 42 }) :=
  ⟨(ParseValue_plain exampleMapstructure
      { Locale := some "en_US", Scope := some "web", Data := .strPtr (some "hello"),
        Links := .nil, LinkedData := .nil } rfl rfl).1 _ rfl,
   (ParseValue_plain exampleMapstructure
      { Locale := none, Scope := none, Data := .strSlice ["a", "b"], Links := .nil, LinkedData := .nil }
      rfl rfl).2.1 _ rfl,
   (ParseValue_plain exampleMapstructure
      { Locale := none, Scope := none, Data := .boolPtr (some true), Links := .nil, LinkedData := .nil }
      rfl rfl).2.2.1 _ rfl,
   (ParseValue_plain exampleMapstructure
      { Locale := none, Scope := none, Data := .intPtr (some 42), Links := .nil, LinkedData := .nil }
      rfl rfl).2.2.2.1 _ rfl⟩

/-! ## Metric, price and table values -/

/-- The price loop on a sequence of mappings that all hold a string under `currency`:
one pair per mapping, in order. -/
theorem priceLoop_ok :
    ∀ (ms : List GoMap) (ps acc : List price),
      List.Forall₂ (fun m p => GoMap.index m "currency" = .string p.Currency ∧
                               p.Amount = GoMap.index m "amount") ms ps →
      priceLoop (ms.map Value.map) acc = .ok (acc ++ ps) := by
  intro ms
  induction ms with
  | nil => intro ps acc h; cases h; simp [priceLoop]
  | cons m rest ih =>
    intro ps acc h
    cases h with
    | @cons _ p _ ps' hp hrest =>
      simp only [List.map_cons, priceLoop, Value.asMap, hp.1]
      rw [ih ps' _ hrest]
      obtain ⟨pa, pc⟩ := p
      simp only at hp
      simp [hp.2]

/-- The part of C12 on prices that holds: a non-empty sequence of mappings, every one
with a string under `currency`, decodes to the price variant with one (amount, currency)
pair per mapping, in order. -/
theorem ParseValue_price (ms : Mapstructure) (v : ProductValue) (m : GoMap) (rest : List GoMap)
    (ps : List price)
    (hl : v.Links = Value.nil) (hld : v.LinkedData = Value.nil)
    (hd : v.Data = .slice ((m :: rest).map Value.map))
    (hall : List.Forall₂ (fun m p => GoMap.index m "currency" = .string p.Currency ∧
                                     p.Amount = GoMap.index m "amount") (m :: rest) ps) :
    ParseValue ms v = .ok (.price { Locale := v.Locale, Scope := v.Scope, Data := ps }) ∧
    ps.length = (m :: rest).length := by
  obtain ⟨loc, sc, data, links, ld⟩ := v
  simp only at hl hld hd
  subst hl hld hd
  have hlen := hall.length_eq
  have hloop := priceLoop_ok (m :: rest) ps [] hall
  have hkey : ∃ c, GoMap.get m "currency" = some c := by
    cases hall with
    | @cons _ p _ ps' hp hrest =>
      unfold GoMap.index at hp
      cases hg : GoMap.get m "currency" with
      | none => rw [hg] at hp; simp at hp
      | some c => exact ⟨c, rfl⟩
  obtain ⟨c, hc⟩ := hkey
  simp only [List.map_cons] at hloop
  refine ⟨?_, hlen.symm⟩
  simp [ParseValue, Value.notNil, hc, hloop]

/-- The part of C12 on tables: a non-empty sequence of mappings whose first element has
no `currency` key decodes to the table variant whose rows are the mappings, in order. -/
theorem ParseValue_table (ms : Mapstructure) (v : ProductValue) (m : GoMap) (rest : List GoMap)
    (hl : v.Links = Value.nil) (hld : v.LinkedData = Value.nil)
    (hd : v.Data = .slice ((m :: rest).map Value.map))
    (hno : GoMap.get m "currency" = none) :
    ParseValue ms v = .ok (.table { Locale := v.Locale, Scope := v.Scope, Data := m :: rest }) := by
  obtain ⟨loc, sc, data, links, ld⟩ := v
  simp only at hl hld hd
  subst hl hld hd
  have hmap : List.map Value.asMap (List.map Value.map rest) = rest := by
    induction rest with
    | nil => rfl
    | cons r rs ih => simp [Value.asMap, ih]
  simp [ParseValue, Value.notNil, hno, Value.asMap, hmap]

theorem ParseValue_price_table_witness :
    ParseValue exampleMapstructure
        { Locale := none, Scope := none,
          Data := .slice [.map [("amount", .int 10), ("currency", .string "EUR")],
                          .map [("amount", .string "12.50"), ("currency", .string "USD")]],
          Links := .nil, LinkedData := .nil }
      = .ok (.price { Locale := none, Scope := none,
                      Data := [{ Amount := .int 10, Currency := "EUR" },
                               { Amount := .string "12.50", Currency := "USD" }] }) ∧
    ParseValue exampleMapstructure
        { Locale := none, Scope := none,
          Data := .slice [.map [("size", .string "S")], .map [("size", .string "M")]],
          Links := .nil, LinkedData := .nil }
      = .ok (.table { Locale := none, Scope := none,
                      Data := [[("size", .string "S")], [("size", .string "M")]] }) :=
  ⟨(ParseValue_price exampleMapstructure _ [("amount", .int 10), ("currency", .string "EUR")]
      [[("amount", .string "12.50"), ("currency", .string "USD")]]
      [{ Amount := .int 10, Currency := "EUR" }, { Amount := .string "12.50", Currency := "USD" }]
      rfl rfl rfl (.cons ⟨rfl, rfl⟩ (.cons ⟨rfl, rfl⟩ .nil))).1,
   ParseValue_table exampleMapstructure _ [("size", .string "S")] [[("size", .string "M")]]
      rfl rfl rfl rfl⟩

/-- C12: a non-empty sequence of mappings whose first element contains a currency key
does not always decode to the price variant. With data [{amount: 10, currency: "EUR"},
{amount: 12}] (the second mapping has no currency) and with data [{amount: 10,
currency: 978}] (the currency is not a string) ParseValue panics in the unchecked
assertion `pd["currency"].(string)`; no variant and no error is returned. -/
theorem ParseValue_price_missing_currency :
    ParseValue exampleMapstructure
        { Locale := none, Scope := none,
          Data := .slice [.map [("amount", .int 10), ("currency", .string "EUR")],
                          .map [("amount", .int 12)]],
          Links := .nil, LinkedData := .nil }
      = .panic .interfaceConversion ∧
    ParseValue exampleMapstructure
        { Locale := none, Scope := none,
          Data := .slice [.map [("amount", .int 10), ("currency", .int 978)]],
          Links := .nil, LinkedData := .nil }
      = .panic .interfaceConversion :=
  ⟨rfl, rfl⟩

theorem priceAmountLoop_eq (c : String) (ps : List price) :
    priceAmountLoop c ps =
      match ps.find? (fun p => p.Currency == c) with
      | none => ""
      | some p =>
        match p.Amount with
        | .string s => s
        | .int i => strconv.Itoa i
        | _ => "" := by
  induction ps with
  | nil => rfl
  | cons p rest ih =>
    cases h : (p.Currency == c) with
    | true => simp only [priceAmountLoop, h, if_true, List.find?]
    | false => simp only [priceAmountLoop, h, Bool.false_eq_true, if_false, List.find?, ih]

/-- What PriceValue.Amount computes, for every price variant and every currency `c`: it
looks at the first entry whose currency is `c` and gives that entry's amount verbatim
when its dynamic type is string, its decimal rendering when its dynamic type is int, and
the empty string for an amount of any other dynamic type; it gives the empty string when
no entry has currency `c`. With amounts of dynamic type int, decoding [{amount: 10,
currency: "EUR"}, {amount: 12, currency: "USD"}] gives a price variant whose
Amount("USD") is "12", whose Amount("EUR") is "10" and whose Amount("GBP") is "". -/
theorem PriceValue_Amount :
    (∀ (v : PriceValue) (c : String),
      v.Amount c =
        match v.Data.find? (fun p => p.Currency == c) with
        | none => ""
        | some p =>
          match p.Amount with
          | .string s => s
          | .int i => strconv.Itoa i
          | _ => "") ∧
    strconv.Itoa 12 = "12" ∧
    ParseValue exampleMapstructure
        { Locale := none, Scope := none,
          Data := .slice [.map [("amount", .int 10), ("currency", .string "EUR")],
                          .map [("amount", .int 12), ("currency", .string "USD")]],
          Links := .nil, LinkedData := .nil }
      = .ok (.price { Locale := none, Scope := none,
                      Data := [{ Amount := .int 10, Currency := "EUR" },
                               { Amount := .int 12, Currency := "USD" }] }) ∧
    PriceValue.Amount { Locale := none, Scope := none,
                        Data := [{ Amount := .int 10, Currency := "EUR" },
                                 { Amount := .int 12, Currency := "USD" }] } "USD" = "12" ∧
    PriceValue.Amount { Locale := none, Scope := none,
                        Data := [{ Amount := .int 10, Currency := "EUR" },
                                 { Amount := .int 12, Currency := "USD" }] } "EUR" = "10" ∧
    PriceValue.Amount { Locale := none, Scope := none,
                        Data := [{ Amount := .int 10, Currency := "EUR" },
                                 { Amount := .int 12, Currency := "USD" }] } "GBP" = "" :=
  ⟨fun v c => priceAmountLoop_eq c v.Data, rfl, rfl, rfl, rfl, rfl⟩

/-- C13: the envelope [{amount: 10, currency: "EUR"}, {amount: 12, currency: "USD"}] as
`encoding/json` decodes it into the `any` field Data, the numbers 10 and 12 being float64
values (bit patterns 4621819117588971520 and 4622945017495814144), decodes to a price
variant that keeps the two float64 amounts, and looking up "USD" in it yields the empty
string, not "12": Amount asserts the dynamic types string and int only. The same holds
for every price variant whose first entry with the currency has a float64 amount. -/
theorem PriceValue_Amount_json_number :
    ParseValue exampleMapstructure
        { Locale := none, Scope := none,
          Data := .slice [.map [("amount", .float64 4621819117588971520), ("currency", .string "EUR")],
                          .map [("amount", .float64 4622945017495814144), ("currency", .string "USD")]],
          Links := .nil, LinkedData := .nil }
      = .ok (.price { Locale := none, Scope := none,
                      Data := [{ Amount := .float64 4621819117588971520, Currency := "EUR" },
                               { Amount := .float64 4622945017495814144, Currency := "USD" }] }) ∧
    PriceValue.Amount { Locale := none, Scope := none,
                        Data := [{ Amount := .float64 4621819117588971520, Currency := "EUR" },
                                 { Amount := .float64 4622945017495814144, Currency := "USD" }] } "USD"
      = "" ∧
    PriceValue.Amount { Locale := none, Scope := none,
                        Data := [{ Amount := .float64 4621819117588971520, Currency := "EUR" },
                                 { Amount := .float64 4622945017495814144, Currency := "USD" }] } "EUR"
      = "" ∧
    (∀ (locale scope : Option String) (bits : Nat) (c : String) (rest : List price),
      PriceValue.Amount { Locale := locale, Scope := scope,
                          Data := { Amount := .float64 bits, Currency := c } :: rest } c = "") :=
  ⟨rfl, rfl, rfl, fun _ _ _ c _ => by simp [PriceValue.Amount, priceAmountLoop]⟩

/-- The shapes of C14 that do end in a returned error: data that is the nil interface, a
plain string, int, float64 or bool, any other dynamic type, a mapping without a `unit`
key, or a non-empty sequence whose first element is not a mapping. -/
theorem ParseValue_unmatched_error (ms : Mapstructure) (v : ProductValue)
    (hl : v.Links = Value.nil) (hld : v.LinkedData = Value.nil)
    (h : v.Data = .nil ∨ (∃ s, v.Data = .string s) ∨ (∃ i, v.Data = .int i) ∨
         (∃ b, v.Data = .float64 b) ∨ (∃ b, v.Data = .bool b) ∨ (∃ t, v.Data = .other t) ∨
         (∃ d, v.Data = .map d ∧ GoMap.get d "unit" = none) ∨
         (∃ x xs, v.Data = .slice (x :: xs) ∧ ∀ m, x ≠ .map m)) :
    ∃ e, ParseValue ms v = .err e := by
  obtain ⟨loc, sc, data, links, ld⟩ := v
  simp only at hl hld h
  subst hl hld
  rcases h with h | ⟨s, h⟩ | ⟨i, h⟩ | ⟨b, h⟩ | ⟨b, h⟩ | ⟨t, h⟩ | ⟨d, h, hu⟩ | ⟨x, xs, h, hx⟩ <;> subst h
  · exact ⟨_, rfl⟩
  · exact ⟨_, rfl⟩
  · exact ⟨_, rfl⟩
  · exact ⟨_, rfl⟩
  · exact ⟨_, rfl⟩
  · exact ⟨_, rfl⟩
  · simp [ParseValue, Value.notNil, hu]
  · cases x with
    | map m => exact absurd rfl (hx m)
    | _ => exact ⟨_, rfl⟩

theorem ParseValue_unmatched_error_witness :
    ∃ e, ParseValue exampleMapstructure
      { Locale := none, Scope := none, Data := .float64 4623507967449235456, Links := .nil,
        LinkedData := .nil } = .err e :=
  ParseValue_unmatched_error exampleMapstructure _ rfl rfl (Or.inr (Or.inr (Or.inr (Or.inl ⟨_, rfl⟩))))

/-- C14: two of the unmatched shapes do not end in a returned error. With data an empty
sequence ParseValue panics in `sd[0]` (index out of range [0] with length 0); with data
a mapping whose `unit` is not a string it panics in the unchecked assertion
`d["unit"].(string)`. -/
theorem ParseValue_unmatched_panics :
    ParseValue exampleMapstructure
        { Locale := none, Scope := none, Data := .slice [], Links := .nil, LinkedData := .nil }
      = .panic (.indexOutOfRange 0 0) ∧
    ParseValue exampleMapstructure
        { Locale := none, Scope := none,
          Data := .map [("amount", .int 1), ("unit", .int 5)], Links := .nil, LinkedData := .nil }
      = .panic .interfaceConversion :=
  ⟨rfl, rfl⟩

/-! ## Round trip -/

theorem priceLoop_encode (ps : List price) :
    ∀ acc, priceLoop
      (ps.map (fun p => Value.map [("amount", p.Amount), ("currency", .string p.Currency)])) acc
      = .ok (acc ++ ps) := by
  induction ps with
  | nil => intro acc; simp [priceLoop]
  | cons p rest ih =>
    intro acc
    obtain ⟨pa, pc⟩ := p
    have hc : GoMap.index [("amount", pa), ("currency", Value.string pc)] "currency" = .string pc := rfl
    have ha : GoMap.index [("amount", pa), ("currency", Value.string pc)] "amount" = pa := rfl
    simp only [List.map_cons, priceLoop, Value.asMap, hc, ha]
    rw [ih]
    simp

theorem decodeLinks_forall₂ (ms : Mapstructure) (ls : List Links)
    (h : ∀ l ∈ ls, ms.decodeLinks (encodeLinks l) = .ok l) :
    List.Forall₂ (fun l d => ms.decodeLinks l = .ok d) (ls.map encodeLinks) ls := by
  induction ls with
  | nil => exact .nil
  | cons l rest ih =>
    exact .cons (h l (List.mem_cons_self _ _)) (ih (fun x hx => h x (List.mem_cons_of_mem _ hx)))

/-- C15, as stated, fails. A table value whose first row has a `currency` key is encoded
as a sequence of mappings and decodes to the price variant; a media value whose link
pointer is nil is encoded without links and decodes to the plain-text variant. Neither
decoding gives back the original. -/
theorem roundtrip_fails :
    ParseValue exampleMapstructure
        (encode (.table { Locale := none, Scope := none,
                          Data := [[("currency", .string "EUR"), ("quantity", .int 3)]] }))
      = .ok (.price { Locale := none, Scope := none,
                      Data := [{ Amount := .nil, Currency := "EUR" }] }) ∧
    ParseValue exampleMapstructure
        (encode (.table { Locale := none, Scope := none,
                          Data := [[("currency", .string "EUR"), ("quantity", .int 3)]] }))
      ≠ .ok (.table { Locale := none, Scope := none,
                      Data := [[("currency", .string "EUR"), ("quantity", .int 3)]] }) ∧
    ParseValue exampleMapstructure
        (encode (.media { Locale := none, Scope := none, Data := some "a.png", Links := none }))
      = .ok (.string { Locale := none, Scope := none, Data := some "a.png" }) ∧
    ParseValue exampleMapstructure
        (encode (.media { Locale := none, Scope := none, Data := some "a.png", Links := none }))
      ≠ .ok (.media { Locale := none, Scope := none, Data := some "a.png", Links := none }) := by
  have h1 : ParseValue exampleMapstructure
        (encode (.table { Locale := none, Scope := none,
                          Data := [[("currency", .string "EUR"), ("quantity", .int 3)]] }))
      = .ok (.price { Locale := none, Scope := none,
                      Data := [{ Amount := .nil, Currency := "EUR" }] }) := rfl
  have h2 : ParseValue exampleMapstructure
        (encode (.media { Locale := none, Scope := none, Data := some "a.png", Links := none }))
      = .ok (.string { Locale := none, Scope := none, Data := some "a.png" }) := rfl
  refine ⟨h1, ?_, h2, ?_⟩
  · rw [h1]; intro h; cases h
  · rw [h2]; intro h; cases h

/-- C15, amended: for every variant value in `RoundTrips` (the plain-text,
text-collection, number, boolean and metric values; the price values with at least one
entry; the table values with at least one row whose first row has no `currency` key; the
select values and the media values with a non-nil link bundle, provided
`mapstructure.Decode` reads the encoded bundles back; the media-collection values with
empty locale and scope and one non-nil link bundle per path), decoding the encoded
envelope succeeds and gives back the value, locale and scope included. -/
theorem decode_encode (ms : Mapstructure) (pv : PimProductValue) (h : RoundTrips ms pv) :
    ParseValue ms (encode pv) = .ok pv := by
  cases pv with
  | string v => rfl
  | stringCollection v => rfl
  | number v => rfl
  | boolean v => rfl
  | metric v =>
    obtain ⟨loc, sc, ⟨a, u⟩⟩ := v
    rfl
  | price v =>
    obtain ⟨loc, sc, data⟩ := v
    simp only [RoundTrips] at h
    cases data with
    | nil => exact absurd rfl h
    | cons p rest =>
      have hloop := priceLoop_encode (p :: rest) []
      simp only [List.map_cons, List.nil_append] at hloop
      have hg : GoMap.get [("amount", p.Amount), ("currency", Value.string p.Currency)] "currency"
          = some (.string p.Currency) := rfl
      simp only [encode, ParseValue, Value.notNil, List.map_cons, hg, hloop]
      rfl
  | table v =>
    obtain ⟨loc, sc, data⟩ := v
    simp only [RoundTrips] at h
    obtain ⟨m, rest, hd, hno⟩ := h
    subst hd
    exact ParseValue_table ms
      { Locale := loc, Scope := sc, Data := .slice ((m :: rest).map Value.map), Links := .nil,
        LinkedData := .nil } m rest rfl rfl rfl hno
  | simpleSelect v =>
    simp only [RoundTrips] at h
    simp [encode, ParseValue, Value.notNil, h]
  | multiSelect v =>
    simp only [RoundTrips] at h
    simp [encode, ParseValue, Value.notNil, h]
  | media v =>
    obtain ⟨loc, sc, data, links⟩ := v
    simp only [RoundTrips] at h
    obtain ⟨l, hl, hdec⟩ := h
    subst hl
    simp [encode, ParseValue, Value.notNil, hdec]
  | mediaSet v =>
    obtain ⟨loc, sc, data, links⟩ := v
    simp only [RoundTrips] at h
    obtain ⟨hloc, hsc, ls, hls, hlen, hdec⟩ := h
    subst hloc hsc hls
    have hz := mediaSetLoop_zip ms data (ls.map encodeLinks) ls [] {}
      (decodeLinks_forall₂ ms ls hdec) (by simp [hlen])
    simp only [List.nil_append, List.length_nil] at hz
    have hlinks : List.map (fun l => match l with
        | some l => Value.map (encodeLinks l)
        | none => Value.nil) (List.map some ls) = List.map Value.map (List.map encodeLinks ls) := by
      simp [List.map_map, Function.comp_def]
    simp only [encode, ParseValue, Value.notNil, if_true, hlinks, hz]

/-- C15, amended, at concrete inputs: a metric value, a price value and a
media-collection value with two paths come back unchanged. -/
theorem decode_encode_witness :
    ParseValue exampleMapstructure
        (encode (.metric { Locale := some "en_US", Scope := some "web",
                           Data := { Amount := .string "12.50", Unit := "KILOGRAM" } }))
      = .ok (.metric { Locale := some "en_US", Scope := some "web",
                       Data := { Amount := .string "12.50", Unit := "KILOGRAM" } }) ∧
    ParseValue exampleMapstructure
        (encode (.price { Locale := none, Scope := none,
                          Data := [{ Amount := .int 10, Currency := "EUR" }] }))
      = .ok (.price { Locale := none, Scope := none,
                      Data := [{ Amount := .int 10, Currency := "EUR" }] }) ∧
    ParseValue exampleMapstructure
        (encode (.mediaSet { Data := ["a.png", "b.png"],
                             Links := [some { Download := { Href := "http://x/a" } },
                                       some { Self := { Href := "http://x/b" } }] }))
      = .ok (.mediaSet { Data := ["a.png", "b.png"],
                         Links := [some { Download := { Href := "http://x/a" } },
                                   some { Self := { Href := "http://x/b" } }] }) :=
  ⟨decode_encode exampleMapstructure _ trivial,
   decode_encode exampleMapstructure _ (by simp [RoundTrips]),
   decode_encode exampleMapstructure _
     ⟨rfl, rfl, [{ Download := { Href := "http://x/a" } }, { Self := { Href := "http://x/b" } }],
      rfl, rfl, by
        intro l hl
        simp only [List.mem_cons, List.mem_singleton, List.not_mem_nil, or_false] at hl
        rcases hl with h | h <;> subst h <;> rfl⟩⟩

/-! ## Request helper: errors, retries, limiter, options -/

/-- What createAndDoGetHeaders does on a session whose mutex is free and whose token is
fresh, once the path has parsed and `opts` has given a query: one limiter acquisition,
one call of Execute, and an outcome decided by what Execute leaves behind. -/
theorem createAndDoGetHeaders_fresh (env : Env) (n : Nat) (method : String) (relPath : RelPath)
    (opts : Opts) (data : Option Payload) (w : World) (path : String) (query0 query : url.Values)
    (hmu : w.authMu = false) (hfresh : ShouldRefreshToken (env.clock w.tick) w = false)
    (hparse : relPath.parsed = .ok (path, query0)) (hopts : optsQuery query0 opts = .ok query) :
    createAndDoGetHeaders env (n + 2) method relPath opts data w =
      (let req : Request :=
         { method := method, path := path, query := query, bearer := w.token, body := data }
       let w1 : World := { w with tick := w.tick + 2,
                                  trace := w.trace ++ [Event.limiterTake, Event.dispatch req] }
       match (env.http (w.tick + 1) req).err with
       | some err => .ret w1 ({}, [], some (error.Wrap err "resty execute error"))
       | none =>
         if (env.http (w.tick + 1) req).IsError then
           .ret w1 ({}, [], some (requestError (env.http (w.tick + 1) req).errResp))
         else .ret w1 ((env.http (w.tick + 1) req).result, (env.http (w.tick + 1) req).header, none)) := by
  simp only [createAndDoGetHeaders, AutoRefreshToken_fresh env n w hmu hfresh, hparse]
  cases opts with
  | nil =>
    simp only [optsQuery, Except.ok.injEq] at hopts
    subst hopts
    cases herr : (env.http (w.tick + 1) _).err <;> simp [herr, errors.Wrap]
  | values v =>
    simp only [optsQuery, Except.ok.injEq] at hopts
    subst hopts
    cases herr : (env.http (w.tick + 1) _).err <;> simp [herr, errors.Wrap]
  | struct c =>
    cases c with
    | error e => simp [optsQuery] at hopts
    | ok v =>
      simp only [optsQuery, Except.ok.injEq] at hopts
      subst hopts
      cases herr : (env.http (w.tick + 1) _).err <;> simp [herr, errors.Wrap]
  | other => simp [optsQuery] at hopts

/-- On a fresh session createAndDoGetHeaders returns the error of `opts`, when `opts`
gives one, before it acquires the limiter. -/
theorem createAndDoGetHeaders_opts_error (env : Env) (n : Nat) (method : String) (relPath : RelPath)
    (opts : Opts) (data : Option Payload) (w : World) (path : String) (query0 : url.Values) (e : error)
    (hmu : w.authMu = false) (hfresh : ShouldRefreshToken (env.clock w.tick) w = false)
    (hparse : relPath.parsed = .ok (path, query0)) (hopts : optsQuery query0 opts = .error e) :
    createAndDoGetHeaders env (n + 2) method relPath opts data w
      = .ret { w with tick := w.tick + 1 } ({}, [], some e) := by
  simp only [createAndDoGetHeaders, AutoRefreshToken_fresh env n w hmu hfresh, hparse]
  cases opts with
  | nil => simp [optsQuery] at hopts
  | values v => simp [optsQuery] at hopts
  | struct c =>
    cases c with
    | error e' =>
      simp only [optsQuery, Except.error.injEq] at hopts
      subst hopts
      rfl
    | ok v => simp [optsQuery] at hopts
  | other =>
    simp only [optsQuery, Except.error.injEq] at hopts
    subst hopts
    rfl

/-- With the mutex held, GrantByRefreshToken never returns, whatever the fuel. -/
theorem GrantByRefreshToken_held (env : Env) (n : Nat) (w : World) (hmu : w.authMu = true) :
    GrantByRefreshToken env n w = .blocked w ∨ GrantByRefreshToken env n w = .outOfFuel := by
  rcases n with _ | _ | _ | _ | n
  · right; rfl
  · right; simp [GrantByRefreshToken, POST]
  · right; simp [GrantByRefreshToken, POST, createAndDoGetHeaders]
  · right; simp [GrantByRefreshToken, POST, createAndDoGetHeaders, AutoRefreshToken]
  · left; exact GrantByRefreshToken_locked env n w hmu

/-- AutoRefreshToken never performs an exchange: when it returns, the session was fresh,
the result is nil and only the clock has been read; when it parks, the trace is as it was. -/
theorem AutoRefreshToken_outcome (env : Env) (n : Nat) (w : World) :
    (AutoRefreshToken env n w = .ret { w with tick := w.tick + 1 } none ∧ w.authMu = false ∧
      ShouldRefreshToken (env.clock w.tick) w = false) ∨
    (∃ w', AutoRefreshToken env n w = .blocked w' ∧ w'.trace = w.trace) ∨
    AutoRefreshToken env n w = .outOfFuel := by
  cases n with
  | zero => right; right; rfl
  | succ n =>
    by_cases hmu : w.authMu = true
    · right; left; exact ⟨w, AutoRefreshToken_locked env n w hmu, rfl⟩
    · have hmu' : w.authMu = false := by simpa using hmu
      by_cases hs : ShouldRefreshToken (env.clock w.tick) w = true
      · have hs' : ShouldRefreshToken (env.clock w.tick)
            { w with authMu := true, tick := w.tick + 1 } = true := hs
        rcases GrantByRefreshToken_held env n { w with authMu := true, tick := w.tick + 1 } rfl with h | h
        · right; left
          refine ⟨{ w with authMu := true, tick := w.tick + 1 }, ?_, rfl⟩
          rw [AutoRefreshToken]
          simp only [hmu', hs', Bool.false_eq_true, if_false, if_true, h]
        · right; right
          rw [AutoRefreshToken]
          simp only [hmu', hs', Bool.false_eq_true, if_false, if_true, h]
      · have hs' : ShouldRefreshToken (env.clock w.tick) w = false := by simpa using hs
        left
        exact ⟨AutoRefreshToken_fresh env n w hmu' hs', hmu', hs'⟩

theorem requestError_message (render : ProductValue → String) (errResp : ErrorResponse) :
    (errResp.Code = 422 → errResp.Errors ≠ [] →
      (requestError errResp).Error render =
        "request error : " ++ errResp.Message ++ ": " ++
          "; ".intercalate (errResp.Errors.map violationLine)) ∧
    (¬ (errResp.Code = 422 ∧ errResp.Errors ≠ []) →
      (requestError errResp).Error render = "request error : " ++ errResp.Message) := by
  constructor
  · intro h1 h2
    have hlen : errResp.Errors.length > 0 := List.length_pos.mpr h2
    simp only [requestError, h1, hlen, error.Error, beq_self_eq_true, decide_True, Bool.and_self, if_true]
    rfl
  · intro h
    by_cases h1 : errResp.Code = 422
    · have h2 : errResp.Errors = [] := by
        by_contra hne
        exact h ⟨h1, hne⟩
      simp [requestError, h2, error.Error]
    · simp [requestError, h1, error.Error]

/-- C16: for every error-status response that createAndDoGetHeaders handles (the session
fresh, the path parsed, `opts` accepted, Execute returned no error and a status above
399), the call returns the error built from the error envelope. Its message is, when the
envelope has code 422 and at least one violation, "request error : <message>" followed
by ": " and the lines "Attribute '<attribute>', property '<property>': <message>", one
per violation in the envelope's order, joined by "; "; otherwise it is
"request error : <message>" alone. -/
theorem request_error_message (env : Env) (n : Nat) (method : String) (relPath : RelPath)
    (opts : Opts) (data : Option Payload) (w : World) (path : String) (query0 query : url.Values)
    (render : ProductValue → String)
    (hmu : w.authMu = false) (hfresh : ShouldRefreshToken (env.clock w.tick) w = false)
    (hparse : relPath.parsed = .ok (path, query0)) (hopts : optsQuery query0 opts = .ok query)
    (herr : (env.http (w.tick + 1) (sentRequest method path query data w)).err = none)
    (hE : (env.http (w.tick + 1) (sentRequest method path query data w)).IsError = true) :
    (∃ w', createAndDoGetHeaders env (n + 2) method relPath opts data w =
      .ret w' ({}, [], some (requestError
        (env.http (w.tick + 1) (sentRequest method path query data w)).errResp))) ∧
    (∀ errResp : ErrorResponse, errResp.Code = 422 → errResp.Errors ≠ [] →
      (requestError errResp).Error render =
        "request error : " ++ errResp.Message ++ ": " ++
          "; ".intercalate (errResp.Errors.map (fun e =>
            "Attribute '" ++ e.Attribute ++ "', property '" ++ e.Property ++ "': " ++ e.Message))) ∧
    (∀ errResp : ErrorResponse, ¬ (errResp.Code = 422 ∧ errResp.Errors ≠ []) →
      (requestError errResp).Error render = "request error : " ++ errResp.Message) := by
  refine ⟨?_, fun e h1 h2 => (requestError_message render e).1 h1 h2,
    fun e h => (requestError_message render e).2 h⟩
  rw [createAndDoGetHeaders_fresh env n method relPath opts data w path query0 query hmu hfresh
    hparse hopts]
  unfold sentRequest at herr hE
  simp only [herr, hE, if_true]
  exact ⟨_, rfl⟩

/-- C16, at a concrete input: a 422 response with two violations. -/
theorem request_error_message_witness :
    (requestError { Code := 422, Message := "Validation failed",
                    Errors := [{ Attribute := "sku", Property := "identifier", Message := "is blank" },
                               { Attribute := "name", Property := "values", Message := "too long" }] }).Error
        (fun _ => "")
      = "request error : Validation failed: Attribute 'sku', property 'identifier': is blank; Attribute 'name', property 'values': too long" ∧
    (requestError { Code := 500, Message := "Internal error", Errors := [] }).Error (fun _ => "")
      = "request error : Internal error" :=
  have h := request_error_message
    { clock := fun _ => 0, password := fun _ _ _ _ => {},
      http := fun _ _ => { status := 422, errResp := { Code := 422, Message := "Validation failed" } } }
    0 "GET" (RelPath.plain "api/rest/v1/products") Opts.nil none
    { exampleWorld with tokenExp := 10000000000000 } "api/rest/v1/products" [] [] (fun _ => "")
    rfl (by decide) rfl rfl rfl (by decide)
  ⟨(h.2.1 { Code := 422, Message := "Validation failed",
            Errors := [{ Attribute := "sku", Property := "identifier", Message := "is blank" },
                       { Attribute := "name", Property := "values", Message := "too long" }] }
      rfl (by simp)).trans (by decide),
   (h.2.2 { Code := 500, Message := "Internal error", Errors := [] } (by simp)).trans (by decide)⟩

theorem Backoff_attempts {ρ : Type} (cond : ρ → Bool) (op : Nat → ρ) :
    ∀ (C a : Nat), a + 1 ≤ (Backoff cond op C a).2 ∧ (Backoff cond op C a).2 ≤ a + C + 1 := by
  intro C
  induction C with
  | zero => intro a; simp [Backoff]
  | succ C ih =>
    intro a
    by_cases h0 : cond (op a) = true
    · have := ih (a + 1)
      simp only [Backoff, h0, if_true]
      omega
    · simp only [Backoff, h0, Bool.false_eq_true, if_false]
      omega

theorem download_fresh {δ : Type} (env : Env) (os : Os δ) (n : Nat) (downloadURL fp : String)
    (w : World) (d : δ)
    (hmu : w.authMu = false) (hfresh : ShouldRefreshToken (env.clock w.tick) w = false) :
    ∃ r, download env os (n + 2) downloadURL fp w d =
      .ret { w with tick := w.tick + 2,
                    trace := w.trace ++ [Event.limiterTake, Event.dispatch (downloadRequest downloadURL w)] }
        r := by
  simp only [download, AutoRefreshToken_fresh env n w hmu hfresh, downloadRequest]
  repeat' split
  all_goals exact ⟨_, rfl⟩

theorem upload_fresh (env : Env) (n : Nat) (endpoint : String) (data : Payload) (w : World)
    (hmu : w.authMu = false) (hfresh : ShouldRefreshToken (env.clock w.tick) w = false) :
    ∃ r, upload env (n + 2) endpoint data w =
      .ret { w with tick := w.tick + 2,
                    trace := w.trace ++ [Event.limiterTake, Event.dispatch (uploadRequest endpoint data w)] }
        r := by
  simp only [upload, AutoRefreshToken_fresh env n w hmu hfresh, uploadRequest]
  repeat' split
  all_goals exact ⟨_, rfl⟩

/-- C18, as stated, fails: with retry count 1 and an upstream that answers 429 once and
then 200, createAndDoGetHeaders makes two physical attempts but its trace holds one
limiter acquisition, in front of the one call of Execute. -/
theorem limiter_not_taken_on_retry :
    attempts 1 (exampleUpstream 1) 1
      (sentRequest "GET" "api/rest/v1/products" [] none { exampleWorld with tokenExp := 10000000000000 })
      = 2 ∧
    createAndDoGetHeaders ((exampleEnv 0 {}).withRetries 1 (exampleUpstream 1)) 2 "GET"
        (RelPath.plain "api/rest/v1/products") Opts.nil none
        { exampleWorld with tokenExp := 10000000000000 }
      = .ret { exampleWorld with
                tokenExp := 10000000000000, tick := 2,
                trace := [Event.limiterTake,
                  Event.dispatch (sentRequest "GET" "api/rest/v1/products" [] none
                    { exampleWorld with tokenExp := 10000000000000 })] }
          ({ AccessToken := "a", RefreshToken := "r", ExpiresIn := 3600 }, [], none) ∧
    List.count Event.limiterTake
      [Event.limiterTake,
       Event.dispatch (sentRequest "GET" "api/rest/v1/products" [] none
         { exampleWorld with tokenExp := 10000000000000 })] = 1 :=
  ⟨rfl, rfl, by decide⟩

/-- C18, amended: every call of createAndDoGetHeaders, download or upload that gets as
far as its request (the session fresh, and for createAndDoGetHeaders the path parsed and
`opts` accepted) acquires the rate limiter exactly once, immediately before its one call
of resty's Execute, Get or Post. The retries that resty makes inside that call are not
preceded by an acquisition: under retry count `C` the call makes between 1 and `C + 1`
physical attempts and still one acquisition. -/
theorem limiter_once_per_call {δ : Type} (env : Env) (os : Os δ) (n : Nat) (w : World)
    (hmu : w.authMu = false) (hfresh : ShouldRefreshToken (env.clock w.tick) w = false) :
    (∀ (C : Nat) (upstream : Nat → Request → Nat → HttpReply) (method : String) (relPath : RelPath)
        (opts : Opts) (data : Option Payload) (path : String) (query0 query : url.Values),
      relPath.parsed = .ok (path, query0) → optsQuery query0 opts = .ok query →
      (∃ r, createAndDoGetHeaders (env.withRetries C upstream) (n + 2) method relPath opts data w =
        .ret { w with tick := w.tick + 2,
                      trace := w.trace ++ [Event.limiterTake,
                        Event.dispatch (sentRequest method path query data w)] } r) ∧
      1 ≤ attempts C upstream (w.tick + 1) (sentRequest method path query data w) ∧
      attempts C upstream (w.tick + 1) (sentRequest method path query data w) ≤ C + 1) ∧
    (∀ (downloadURL fp : String) (d : δ),
      ∃ r, download env os (n + 2) downloadURL fp w d =
        .ret { w with tick := w.tick + 2,
                      trace := w.trace ++ [Event.limiterTake,
                        Event.dispatch (downloadRequest downloadURL w)] } r) ∧
    (∀ (endpoint : String) (data : Payload),
      ∃ r, upload env (n + 2) endpoint data w =
        .ret { w with tick := w.tick + 2,
                      trace := w.trace ++ [Event.limiterTake,
                        Event.dispatch (uploadRequest endpoint data w)] } r) := by
  refine ⟨?_, fun u fp d => download_fresh env os n u fp w d hmu hfresh,
    fun e data => upload_fresh env n e data w hmu hfresh⟩
  intro C upstream method relPath opts data path query0 query hparse hopts
  have hrun := createAndDoGetHeaders_fresh (env.withRetries C upstream) n method relPath opts data w
    path query0 query hmu hfresh hparse hopts
  have hb := Backoff_attempts (fun r : HttpReply => retryCondition r.status)
    (upstream (w.tick + 1) (sentRequest method path query data w)) C 0
  refine ⟨?_, by simpa [attempts] using hb.1, by simpa [attempts] using hb.2⟩
  rw [hrun]
  simp only [sentRequest]
  repeat' split
  all_goals exact ⟨_, rfl⟩

/-- C18, amended, at a concrete input: a download on the fresh example session. -/
theorem limiter_once_per_call_witness :
    ∃ r, download (exampleEnv 0 {}) exampleOs 2 "http://x/api/rest/v1/media-files/a.png/download"
        "/tmp/a.png" { exampleWorld with tokenExp := 10000000000000 } [] =
      .ret { exampleWorld with
              tokenExp := 10000000000000, tick := 2,
              trace := [Event.limiterTake,
                Event.dispatch (downloadRequest "http://x/api/rest/v1/media-files/a.png/download"
                  { exampleWorld with tokenExp := 10000000000000 })] } r :=
  (limiter_once_per_call (exampleEnv 0 {}) exampleOs 0
    { exampleWorld with tokenExp := 10000000000000 } rfl (by decide)).2.1
    "http://x/api/rest/v1/media-files/a.png/download" "/tmp/a.png" []

/-- C19: when `opts` is neither nil, nor a url.Values, nor a struct, nor a pointer to a
struct, createAndDoGetHeaders never acquires the rate limiter and never dispatches:
whatever the session and however the call ends, the trace is as it was, and a call that
returns returns an error. On a fresh session with a path that parses, the error is "opts
must be a struct or a pointer to a struct or a url.Values". With `opts` nil on such a
session, the request is dispatched with the query of the parsed path unchanged. -/
theorem invalid_options (env : Env) (method : String) (relPath : RelPath) (data : Option Payload)
    (w : World) :
    (∀ fuel w' r, createAndDoGetHeaders env fuel method relPath Opts.other data w = .ret w' r →
      w'.trace = w.trace ∧ r.2.2 ≠ none) ∧
    (∀ fuel w', createAndDoGetHeaders env fuel method relPath Opts.other data w = .blocked w' →
      w'.trace = w.trace) ∧
    (∀ n path query0, w.authMu = false → ShouldRefreshToken (env.clock w.tick) w = false →
      relPath.parsed = .ok (path, query0) →
      createAndDoGetHeaders env (n + 2) method relPath Opts.other data w =
        .ret { w with tick := w.tick + 1 }
          ({}, [], some (error.New "opts must be a struct or a pointer to a struct or a url.Values"))) ∧
    (∀ n path query0, w.authMu = false → ShouldRefreshToken (env.clock w.tick) w = false →
      relPath.parsed = .ok (path, query0) →
      ∃ r, createAndDoGetHeaders env (n + 2) method relPath Opts.nil data w =
        .ret { w with tick := w.tick + 2,
                      trace := w.trace ++ [Event.limiterTake,
                        Event.dispatch (sentRequest method path query0 data w)] } r) := by
  refine ⟨?_, ?_, ?_, ?_⟩
  · intro fuel w' r h
    cases fuel with
    | zero => simp [createAndDoGetHeaders] at h
    | succ n =>
      rcases AutoRefreshToken_outcome env n w with ⟨ha, _, _⟩ | ⟨w'', ha, _⟩ | ha
      · simp only [createAndDoGetHeaders, ha] at h
        cases hp : relPath.parsed with
        | error e =>
          simp only [hp, Run.ret.injEq] at h
          obtain ⟨h1, h2⟩ := h
          subst h1 h2
          exact ⟨rfl, by simp⟩
        | ok pq =>
          obtain ⟨p, q⟩ := pq
          simp only [hp, Run.ret.injEq] at h
          obtain ⟨h1, h2⟩ := h
          subst h1 h2
          exact ⟨rfl, by simp⟩
      · simp [createAndDoGetHeaders, ha] at h
      · simp [createAndDoGetHeaders, ha] at h
  · intro fuel w' h
    cases fuel with
    | zero => simp [createAndDoGetHeaders] at h
    | succ n =>
      rcases AutoRefreshToken_outcome env n w with ⟨ha, _, _⟩ | ⟨w'', ha, htr⟩ | ha
      · simp only [createAndDoGetHeaders, ha] at h
        cases hp : relPath.parsed with
        | error e => simp [hp] at h
        | ok pq =>
          obtain ⟨p, q⟩ := pq
          simp [hp] at h
      · simp only [createAndDoGetHeaders, ha, Run.blocked.injEq] at h
        subst h
        exact htr
      · simp [createAndDoGetHeaders, ha] at h
  · intro n path query0 hmu hfresh hparse
    exact createAndDoGetHeaders_opts_error env n method relPath Opts.other data w path query0 _
      hmu hfresh hparse rfl
  · intro n path query0 hmu hfresh hparse
    rw [createAndDoGetHeaders_fresh env n method relPath Opts.nil data w path query0 query0
      hmu hfresh hparse rfl]
    simp only [sentRequest]
    repeat' split
    all_goals exact ⟨_, rfl⟩

/-- C19, at a concrete input: an `opts` of unsupported type on the fresh example session;
the error is returned and the trace stays empty. -/
theorem invalid_options_witness :
    createAndDoGetHeaders (exampleEnv 0 {}) 2 "GET" (RelPath.plain "api/rest/v1/products")
        Opts.other none { exampleWorld with tokenExp := 10000000000000 }
      = .ret { exampleWorld with tokenExp := 10000000000000, tick := 1 }
          ({}, [], some (error.New "opts must be a struct or a pointer to a struct or a url.Values")) :=
  (invalid_options (exampleEnv 0 {}) "GET" (RelPath.plain "api/rest/v1/products") none
    { exampleWorld with tokenExp := 10000000000000 }).2.2.1 0 "api/rest/v1/products" []
    rfl (by decide) rfl

/-- C20: for every download on a fresh session whose `Get` returns no error and status
404, the call returns the error "file not found : <url>", whatever the body is and
whatever decoding it would give, and the file system is exactly as it was: no directory
made, no file created or written. The message differs from every message that starts with
"request error :", hence from the generic error that download builds from a decoded
error envelope. -/
theorem download_not_found {δ : Type} (env : Env) (os : Os δ) (n : Nat) (downloadURL fp : String)
    (w : World) (d : δ)
    (hmu : w.authMu = false) (hfresh : ShouldRefreshToken (env.clock w.tick) w = false)
    (herr : (env.raw (w.tick + 1) (downloadRequest downloadURL w)).err = none)
    (h404 : (env.raw (w.tick + 1) (downloadRequest downloadURL w)).status = 404) :
    download env os (n + 2) downloadURL fp w d =
      .ret { w with tick := w.tick + 2,
                    trace := w.trace ++ [Event.limiterTake, Event.dispatch (downloadRequest downloadURL w)] }
        (d, some (error.New ("file not found : " ++ downloadURL))) ∧
    (∀ (render : ProductValue → String) (errResp : ErrorResponse),
      (error.New ("file not found : " ++ downloadURL)).Error render ≠
        (error.New ("request error :error Code: " ++ strconv.Itoa errResp.Code ++
          ", error message: " ++ errResp.Message)).Error render) := by
  constructor
  · unfold downloadRequest at herr h404
    simp [download, AutoRefreshToken_fresh env n w hmu hfresh, herr, h404, downloadRequest]
  · intro render errResp
    simp only [error.Error]
    intro h
    have h' := congrArg String.data h
    simp only [String.data_append] at h'
    have h'' := congrArg List.head? h'
    simp at h''

/-- C20, at a concrete input: the upstream answers 404 with a body that is not JSON; the
list of files stays empty. -/
theorem download_not_found_witness :
    download
        { clock := fun _ => 0, password := fun _ _ _ _ => {}, http := fun _ _ => {},
          raw := fun _ _ => { status := 404, body := "<html>not found</html>",
                              unmarshal := .error (error.external "invalid character") } }
        exampleOs 2 "http://x/api/rest/v1/media-files/a.png/download" "/tmp/a.png"
        { exampleWorld with tokenExp := 10000000000000 } []
      = .ret { exampleWorld with
                tokenExp := 10000000000000, tick := 2,
                trace := [Event.limiterTake,
                  Event.dispatch (downloadRequest "http://x/api/rest/v1/media-files/a.png/download"
                    { exampleWorld with tokenExp := 10000000000000 })] }
          ([], some (error.New "file not found : http://x/api/rest/v1/media-files/a.png/download")) :=
  (download_not_found
    { clock := fun _ => 0, password := fun _ _ _ _ => {}, http := fun _ _ => {},
      raw := fun _ _ => { status := 404, body := "<html>not found</html>",
                          unmarshal := .error (error.external "invalid character") } }
    exampleOs 0 "http://x/api/rest/v1/media-files/a.png/download" "/tmp/a.png"
    { exampleWorld with tokenExp := 10000000000000 } [] rfl (by decide) rfl rfl).1

/-! ## Client configuration -/

theorem pimVersionMap_lookup_isSome (v : Int) :
    (pimVersionMap.lookup v).isSome = true ↔
      v = AkeneoPimVersion7 ∨ v = AkeneoPimVersion6 ∨ v = AkeneoPimVersion5 := by
  unfold pimVersionMap AkeneoPimVersion7 AkeneoPimVersion6 AkeneoPimVersion5
  by_cases h1 : v = 1
  · subst h1; simp [List.lookup]
  · by_cases h2 : v = 2
    · subst h2; simp [List.lookup]
    · by_cases h3 : v = 3
      · subst h3; simp [List.lookup]
      · have e1 : (v == 1) = false := by simpa using h1
        have e2 : (v == 2) = false := by simpa using h2
        have e3 : (v == 3) = false := by simpa using h3
        simp [List.lookup, e1, e2, e3, h1, h2, h3]

theorem validate_eq_none (c : Client) :
    c.validate = none ↔
      c.baseURL ≠ none ∧ c.connector.ClientID ≠ "" ∧ c.connector.Secret ≠ "" ∧
      c.connector.UserName ≠ "" ∧ c.connector.Password ≠ "" ∧
      (c.osVersion = AkeneoPimVersion7 ∨ c.osVersion = AkeneoPimVersion6 ∨
        c.osVersion = AkeneoPimVersion5) := by
  rw [← pimVersionMap_lookup_isSome]
  unfold Client.validate
  cases hb : c.baseURL with
  | none => simp
  | some u =>
    by_cases h1 : c.connector.ClientID = ""
    · simp [h1]
    · by_cases h2 : c.connector.Secret = ""
      · simp [h1, h2]
      · by_cases h3 : c.connector.UserName = ""
        · simp [h1, h2, h3]
        · by_cases h4 : c.connector.Password = ""
          · simp [h1, h2, h3, h4]
          · cases hv : pimVersionMap.lookup c.osVersion <;> simp [h1, h2, h3, h4, hv]

/-- C21: Client.validate returns nil if and only if baseURL is not nil, each of client
id, secret, username and password is non-empty, and osVersion is one of the three
selectors AkeneoPimVersion7, AkeneoPimVersion6, AkeneoPimVersion5 (the constants 1, 2, 3),
which pimVersionMap maps to "7.0", "6.0", "5.0". When several conditions fail the error
is that of the first in the order base URL, client id, secret, username, password,
version. The default selector is AkeneoPimVersion6 and passes the version test; it is
the selector of every client that NewClient configures without WithVersion. -/
theorem client_validation (c : Client) :
    (c.validate = none ↔
      c.baseURL ≠ none ∧ c.connector.ClientID ≠ "" ∧ c.connector.Secret ≠ "" ∧
      c.connector.UserName ≠ "" ∧ c.connector.Password ≠ "" ∧
      (c.osVersion = AkeneoPimVersion7 ∨ c.osVersion = AkeneoPimVersion6 ∨
        c.osVersion = AkeneoPimVersion5)) ∧
    (pimVersionMap.lookup AkeneoPimVersion7 = some "7.0" ∧
     pimVersionMap.lookup AkeneoPimVersion6 = some "6.0" ∧
     pimVersionMap.lookup AkeneoPimVersion5 = some "5.0") ∧
    (c.baseURL = none → c.validate = some (error.New "baseURL is nil")) ∧
    (c.baseURL ≠ none → c.connector.ClientID = "" →
      c.validate = some (error.New "clientID is empty")) ∧
    (c.baseURL ≠ none → c.connector.ClientID ≠ "" → c.connector.Secret = "" →
      c.validate = some (error.New "secret is empty")) ∧
    (c.baseURL ≠ none → c.connector.ClientID ≠ "" → c.connector.Secret ≠ "" →
      c.connector.UserName = "" → c.validate = some (error.New "username is empty")) ∧
    (c.baseURL ≠ none → c.connector.ClientID ≠ "" → c.connector.Secret ≠ "" →
      c.connector.UserName ≠ "" → c.connector.Password = "" →
      c.validate = some (error.New "password is empty")) ∧
    (c.baseURL ≠ none → c.connector.ClientID ≠ "" → c.connector.Secret ≠ "" →
      c.connector.UserName ≠ "" → c.connector.Password ≠ "" →
      ¬ (c.osVersion = AkeneoPimVersion7 ∨ c.osVersion = AkeneoPimVersion6 ∨
          c.osVersion = AkeneoPimVersion5) →
      c.validate = some (error.New ("invalid osVersion " ++ strconv.Itoa c.osVersion))) ∧
    (defaultVersion = AkeneoPimVersion6 ∧
     ∀ (con : Connector) (urls : List (Option String)),
       (configure con (urls.map WithBaseURL)).osVersion = defaultVersion) := by
  refine ⟨validate_eq_none c, ⟨rfl, rfl, rfl⟩, ?_, ?_, ?_, ?_, ?_, ?_, rfl, ?_⟩
  · intro hb
    simp [Client.validate, hb]
  · intro hb h1
    cases hu : c.baseURL with
    | none => exact absurd hu hb
    | some u => simp [Client.validate, hu, h1]
  · intro hb h1 h2
    cases hu : c.baseURL with
    | none => exact absurd hu hb
    | some u => simp [Client.validate, hu, h1, h2]
  · intro hb h1 h2 h3
    cases hu : c.baseURL with
    | none => exact absurd hu hb
    | some u => simp [Client.validate, hu, h1, h2, h3]
  · intro hb h1 h2 h3 h4
    cases hu : c.baseURL with
    | none => exact absurd hu hb
    | some u => simp [Client.validate, hu, h1, h2, h3, h4]
  · intro hb h1 h2 h3 h4 hv
    have hnone : pimVersionMap.lookup c.osVersion = none := by
      cases hl : pimVersionMap.lookup c.osVersion with
      | none => rfl
      | some s =>
        exact absurd ((pimVersionMap_lookup_isSome c.osVersion).1 (by simp [hl])) hv
    cases hu : c.baseURL with
    | none => exact absurd hu hb
    | some u => simp [Client.validate, hu, h1, h2, h3, h4, hnone]
  · intro con urls
    have key : ∀ (l : List (Option String)) (c1 : Client),
        (List.foldl (fun c opt => opt c) c1 (l.map WithBaseURL)).osVersion = c1.osVersion := by
      intro l
      induction l with
      | nil => intro c1; rfl
      | cons u rest ih => intro c1; simp only [List.map_cons, List.foldl_cons]; rw [ih]; rfl
    exact key urls _

/-- C21, at concrete inputs: a client configured with a base URL and the default version
is valid; the same client with selector 7, which is none of the three constants, is
rejected for its version; a client that lacks both the base URL and the secret is
rejected for the base URL. -/
theorem client_validation_witness :
    Client.validate (configure ⟨"id", "secret", "user", "pw"⟩ [WithBaseURL (some "https://pim.example")])
      = none ∧
    Client.validate
        (configure ⟨"id", "secret", "user", "pw"⟩ [WithBaseURL (some "https://pim.example"), WithVersion 7])
      = some (error.New "invalid osVersion 7") ∧
    Client.validate (configure ⟨"id", "", "user", "pw"⟩ []) = some (error.New "baseURL is nil") :=
  ⟨(client_validation
      (configure ⟨"id", "secret", "user", "pw"⟩ [WithBaseURL (some "https://pim.example")])).1.2
      ⟨by decide, by decide, by decide, by decide, by decide, Or.inr (Or.inl rfl)⟩,
   ((client_validation
      (configure ⟨"id", "secret", "user", "pw"⟩
        [WithBaseURL (some "https://pim.example"), WithVersion 7])).2.2.2.2.2.2.2.1
      (by decide) (by decide) (by decide) (by decide) (by decide) (by decide)).trans rfl,
   (client_validation (configure ⟨"id", "", "user", "pw"⟩ [])).2.2.1 rfl⟩

/-! ## The refresh path and the auth lock -/

/-- C22: a single call of AutoRefreshToken on a session whose mutex is free and for which
ShouldRefreshToken is true does not return. It returns for no amount of fuel, and from
fuel 5 on it parks with the mutex held: the refresh path does call AutoRefreshToken
again, as the first step of createAndDoGetHeaders under POST under GrantByRefreshToken,
and that inner call, like every call of the request helper made while the mutex is held,
parks in `Lock` on the mutex that the outer call holds. -/
theorem AutoRefreshToken_reenters_lock (env : Env) (w : World) (hmu : w.authMu = false)
    (hstale : ShouldRefreshToken (env.clock w.tick) w = true) :
    (∀ fuel w' r, AutoRefreshToken env fuel w ≠ .ret w' r) ∧
    (∀ n, AutoRefreshToken env (n + 5) w = .blocked { w with authMu := true, tick := w.tick + 1 }) ∧
    (∀ n, GrantByRefreshToken env (n + 4) { w with authMu := true, tick := w.tick + 1 }
      = .blocked { w with authMu := true, tick := w.tick + 1 }) ∧
    (∀ n method relPath opts data (w1 : World), w1.authMu = true →
      AutoRefreshToken env (n + 1) w1 = .blocked w1 ∧
      createAndDoGetHeaders env (n + 2) method relPath opts data w1 = .blocked w1) := by
  refine ⟨?_, fun n => AutoRefreshToken_stale env n w hmu hstale,
    fun n => GrantByRefreshToken_locked env n _ rfl,
    fun n method relPath opts data w1 h1 =>
      ⟨AutoRefreshToken_locked env n w1 h1,
       createAndDoGetHeaders_locked env n method relPath opts data w1 h1⟩⟩
  intro fuel w' r h
  rcases AutoRefreshToken_outcome env fuel w with ⟨_, _, hf⟩ | ⟨w'', hb, _⟩ | ho
  · rw [hstale] at hf
    exact absurd hf (by decide)
  · rw [hb] at h
    cases h
  · rw [ho] at h
    cases h

/-- C22, at a concrete input: the token expired an hour ago (expiry 0, clock at 3600 s)
and the upstream would answer the refresh with a valid grant; with fuel 50 the call has
parked, the mutex held, the trace empty. -/
theorem AutoRefreshToken_reenters_lock_witness :
    exampleWorld.authMu = false ∧
    ShouldRefreshToken 3600000000000 exampleWorld = true ∧
    AutoRefreshToken (exampleEnv 3600000000000 { AccessToken := "a", RefreshToken := "r", ExpiresIn := 7200 })
        50 exampleWorld
      = .blocked { exampleWorld with authMu := true, tick := 1 } :=
  ⟨rfl, by decide,
   (AutoRefreshToken_reenters_lock
      (exampleEnv 3600000000000 { AccessToken := "a", RefreshToken := "r", ExpiresIn := 7200 })
      exampleWorld rfl (by decide)).2.1 45⟩

/-! ## Locale and scope of the decoded variant -/

theorem mediaSetLoop_locale_scope (ms : Mapstructure) (links : List Value) (data : List Value) :
    ∀ (i : Nat) (s : MediaSetValue) (pv : PimProductValue),
      mediaSetLoop ms links data i s = .ok pv →
      ∃ s', pv = .mediaSet s' ∧ s'.Locale = s.Locale ∧ s'.Scope = s.Scope := by
  induction data with
  | nil =>
    intro i s pv h
    simp only [mediaSetLoop, Outcome.ok.injEq] at h
    exact ⟨s, h.symm, rfl, rfl⟩
  | cons d rest ih =>
    intro i s pv h
    cases d with
    | string ds =>
      simp only [mediaSetLoop] at h
      cases hl : links[i]? with
      | none => rw [hl] at h; cases h
      | some l =>
        rw [hl] at h
        cases l with
        | map ll =>
          simp only at h
          cases hd : ms.decodeLinks ll with
          | error e => rw [hd] at h; cases h
          | ok link =>
            rw [hd] at h
            obtain ⟨s', h1, h2, h3⟩ := ih _ _ _ h
            exact ⟨s', h1, h2, h3⟩
        | _ => cases h
    | _ => simp [mediaSetLoop] at h

/-- What ParseValue does with locale and scope: a media-collection variant comes out with
empty locale and scope, whatever the envelope holds; every other variant holds the
envelope's locale and scope. -/
theorem ParseValue_locale_scope (ms : Mapstructure) (v : ProductValue) (pv : PimProductValue)
    (h : ParseValue ms v = .ok pv) :
    (∃ s, pv = .mediaSet s ∧ s.Locale = "" ∧ s.Scope = "") ∨
    ((∀ s, pv ≠ .mediaSet s) ∧ pv.holds v.Locale v.Scope) := by
  unfold ParseValue at h
  repeat' split at h
  all_goals first
    | exact Or.inl (mediaSetLoop_locale_scope ms _ _ _ _ _ h)
    | (cases h; refine Or.inr ⟨?_, rfl, rfl⟩; intro s hs; cases hs)
    | cases h

theorem ParseValue_locale_scope_witness :
    PimProductValue.holds
      (.string { Locale := some "en_US", Scope := some "web", Data := some "hello" })
      (some "en_US") (some "web") := by
  rcases ParseValue_locale_scope exampleMapstructure
    { Locale := some "en_US", Scope := some "web", Data := .strPtr (some "hello"),
      Links := .nil, LinkedData := .nil }
    (.string { Locale := some "en_US", Scope := some "web", Data := some "hello" }) rfl with
    ⟨s, hs, _⟩ | ⟨_, h⟩
  · cases hs
  · exact h

/-- C23: a media-collection envelope with locale "en_US" and scope "ecommerce" decodes
successfully, but the variant produced holds the empty string as locale and as scope:
ParseValue builds the MediaSetValue without them. -/
theorem ParseValue_mediaSet_drops_locale_scope :
    ParseValue exampleMapstructure
        { Locale := some "en_US", Scope := some "ecommerce",
          Data := .slice [.string "a.png"],
          Links := .slice [.map [("download", .map [("href", .string "http://x/a")])]],
          LinkedData := .nil }
      = .ok (.mediaSet { Locale := "", Scope := "", Data := ["a.png"],
                         Links := [some { Download := { Href := "http://x/a" } }] }) ∧
    ¬ PimProductValue.holds
        (.mediaSet { Locale := "", Scope := "", Data := ["a.png"],
                     Links := [some { Download := { Href := "http://x/a" } }] })
        (some "en_US") (some "ecommerce") := by
  refine ⟨rfl, ?_⟩
  intro h
  have := h.1
  revert this
  decide

/-! ## Merging query options -/

theorem Set_cons_eq (q : url.Values) (k x : String) (b : List String) :
    url.Values.Set ((k, b) :: q) k x
      = (k, [x]) :: q.map (fun kv => if kv.1 == k then (k, [x]) else kv) := by
  simp [url.Values.Set]

theorem Set_cons_ne (q : url.Values) (a k x : String) (b : List String) (h : a ≠ k) :
    url.Values.Set ((a, b) :: q) k x = (a, b) :: url.Values.Set q k x := by
  have hb : (a == k) = false := by simpa using h
  unfold url.Values.Set
  by_cases hany : (q.any (fun kv => kv.1 == k)) = true
  · simp [hany, hb, h]
  · simp [hany, hb, h]

theorem lookup_cons_eq (q : url.Values) (k : String) (b : List String) :
    url.Values.lookup ((k, b) :: q) k = some b := by
  simp [url.Values.lookup, List.find?]

theorem lookup_cons_ne (q : url.Values) (a k : String) (b : List String) (h : a ≠ k) :
    url.Values.lookup ((a, b) :: q) k = url.Values.lookup q k := by
  have hb : (a == k) = false := by simpa using h
  simp [url.Values.lookup, List.find?, hb]

theorem lookup_map_other (q : url.Values) (k k' x : String) (h : k' ≠ k) :
    url.Values.lookup (q.map (fun kv => if kv.1 == k then (k, [x]) else kv)) k'
      = url.Values.lookup q k' := by
  induction q with
  | nil => rfl
  | cons kv rest ih =>
    obtain ⟨a, b⟩ := kv
    by_cases ha : a = k
    · subst ha
      simp only [List.map_cons, beq_self_eq_true, if_true]
      rw [lookup_cons_ne _ _ _ _ (Ne.symm h), lookup_cons_ne _ _ _ _ (Ne.symm h), ih]
    · have hb : (a == k) = false := by simpa using ha
      simp only [List.map_cons, hb, Bool.false_eq_true, if_false]
      by_cases hk : a = k'
      · subst hk
        rw [lookup_cons_eq, lookup_cons_eq]
      · rw [lookup_cons_ne _ _ _ _ hk, lookup_cons_ne _ _ _ _ hk, ih]

/-- After `Set` the key holds exactly the one value. -/
theorem lookup_Set_same (q : url.Values) (k x : String) :
    url.Values.lookup (url.Values.Set q k x) k = some [x] := by
  induction q with
  | nil => simp [url.Values.Set, url.Values.lookup, List.find?]
  | cons kv rest ih =>
    obtain ⟨a, b⟩ := kv
    by_cases ha : a = k
    · subst ha
      rw [Set_cons_eq, lookup_cons_eq]
    · rw [Set_cons_ne _ _ _ _ _ ha, lookup_cons_ne _ _ _ _ ha, ih]

/-- A `Set` leaves every other key as it was. -/
theorem lookup_Set_other (q : url.Values) (k k' x : String) (h : k' ≠ k) :
    url.Values.lookup (url.Values.Set q k x) k' = url.Values.lookup q k' := by
  induction q with
  | nil =>
    have hb : (k == k') = false := by simpa using (Ne.symm h)
    simp [url.Values.Set, url.Values.lookup, List.find?, hb]
  | cons kv rest ih =>
    obtain ⟨a, b⟩ := kv
    by_cases ha : a = k
    · subst ha
      rw [Set_cons_eq, lookup_cons_ne _ _ _ _ (Ne.symm h), lookup_cons_ne _ _ _ _ (Ne.symm h),
        lookup_map_other _ _ _ _ h]
    · rw [Set_cons_ne _ _ _ _ _ ha]
      by_cases hk : a = k'
      · subst hk
        rw [lookup_cons_eq, lookup_cons_eq]
      · rw [lookup_cons_ne _ _ _ _ hk, lookup_cons_ne _ _ _ _ hk, ih]

theorem foldl_Set_other (vals : List String) (k k' : String) (h : k' ≠ k) :
    ∀ q : url.Values,
      url.Values.lookup (vals.foldl (fun q value => url.Values.Set q k value) q) k'
        = url.Values.lookup q k' := by
  induction vals with
  | nil => intro q; rfl
  | cons x rest ih =>
    intro q
    simp only [List.foldl_cons]
    rw [ih, lookup_Set_other _ _ _ _ h]

theorem foldl_Set_same (vals : List String) (k : String) (hne : vals ≠ []) (q : url.Values) :
    url.Values.lookup (vals.foldl (fun q value => url.Values.Set q k value) q) k
      = some [vals.getLast hne] := by
  have hsplit : vals = vals.dropLast ++ [vals.getLast hne] := (List.dropLast_append_getLast hne).symm
  conv_lhs => rw [hsplit]
  rw [List.foldl_append]
  simp only [List.foldl_cons, List.foldl_nil]
  exact lookup_Set_same _ _ _

/-- Entries whose key is another one, or whose value list is empty, leave the key alone. -/
theorem mergeQuery_other (k : String) (v : url.Values) :
    ∀ q : url.Values, (∀ kv ∈ v, kv.1 = k → kv.2 = []) →
      url.Values.lookup (mergeQuery q v) k = url.Values.lookup q k := by
  induction v with
  | nil => intro q _; rfl
  | cons kv rest ih =>
    intro q h
    obtain ⟨a, vals⟩ := kv
    have hrest : ∀ kv ∈ rest, kv.1 = k → kv.2 = [] :=
      fun kv hkv => h kv (List.mem_cons_of_mem _ hkv)
    have := ih (vals.foldl (fun q value => url.Values.Set q a value) q) hrest
    simp only [mergeQuery, List.foldl_cons] at this ⊢
    rw [this]
    by_cases ha : a = k
    · have hv : vals = [] := h (a, vals) (List.mem_cons_self _ _) ha
      subst hv
      rfl
    · exact foldl_Set_other vals a k (Ne.symm ha) q

theorem mergeQuery_same (k : String) (vals : List String) (hne : vals ≠ []) (v : url.Values) :
    ∀ q : url.Values, (v.map Prod.fst).Nodup → (k, vals) ∈ v →
      url.Values.lookup (mergeQuery q v) k = some [vals.getLast hne] := by
  induction v with
  | nil => intro q _ hm; cases hm
  | cons kv rest ih =>
    intro q hnd hm
    obtain ⟨a, avals⟩ := kv
    simp only [List.map_cons, List.nodup_cons] at hnd
    have hstep : mergeQuery q ((a, avals) :: rest)
        = mergeQuery (avals.foldl (fun q value => url.Values.Set q a value) q) rest := by
      simp [mergeQuery]
    rw [hstep]
    rcases List.mem_cons.1 hm with heq | hin
    · have h1 : a = k := (Prod.mk.inj heq).1.symm
      have h2 : avals = vals := (Prod.mk.inj heq).2.symm
      subst h1 h2
      rw [mergeQuery_other a rest _ (fun kv hkv hk => by
        exfalso
        apply hnd.1
        rw [← hk]
        exact List.mem_map_of_mem Prod.fst hkv)]
      exact foldl_Set_same avals a hne q
    · exact ih _ hnd.2 hin

/-- C24: `opts` is a url.Values `v` (a map, so no key occurs twice) and `query0` is the
query of the parsed path. In the merged query every key of `v` with a non-empty value
list holds exactly one value, the last of its list, whatever `query0` held for it; every
key that `v` does not contain, or contains with an empty value list, holds what it held
in `query0` (nothing, if it was absent). On a fresh session the request is dispatched
with that merged query. -/
theorem merge_query_options (env : Env) (n : Nat) (method : String) (relPath : RelPath)
    (data : Option Payload) (w : World) (path : String) (query0 v : url.Values)
    (hnd : (v.map Prod.fst).Nodup)
    (hmu : w.authMu = false) (hfresh : ShouldRefreshToken (env.clock w.tick) w = false)
    (hparse : relPath.parsed = .ok (path, query0)) :
    (∀ (k : String) (vals : List String) (hne : vals ≠ []), (k, vals) ∈ v →
      url.Values.lookup (mergeQuery query0 v) k = some [vals.getLast hne]) ∧
    (∀ k : String, (∀ vals, (k, vals) ∈ v → vals = []) →
      url.Values.lookup (mergeQuery query0 v) k = url.Values.lookup query0 k) ∧
    (∃ r, createAndDoGetHeaders env (n + 2) method relPath (Opts.values v) data w =
      .ret { w with tick := w.tick + 2,
                    trace := w.trace ++ [Event.limiterTake,
                      Event.dispatch (sentRequest method path (mergeQuery query0 v) data w)] } r) := by
  refine ⟨fun k vals hne hm => mergeQuery_same k vals hne v query0 hnd hm,
    fun k h => mergeQuery_other k v query0 (fun kv hkv hk => by
      obtain ⟨a, b⟩ := kv
      simp only at hk
      subst hk
      exact h b hkv), ?_⟩
  rw [createAndDoGetHeaders_fresh env n method relPath (Opts.values v) data w path query0
    (mergeQuery query0 v) hmu hfresh hparse rfl]
  simp only [sentRequest]
  repeat' split
  all_goals exact ⟨_, rfl⟩

/-- C24, at a concrete input: the path's query is page=1&limit=10&search=x and the
options are limit=[25, 100], search=[] and locale=[en_US]: limit becomes 100 alone,
page and search keep their values, locale is added. -/
theorem merge_query_options_witness :
    mergeQuery [("page", ["1"]), ("limit", ["10"]), ("search", ["x"])]
        [("limit", ["25", "100"]), ("search", []), ("locale", ["en_US"])]
      = [("page", ["1"]), ("limit", ["100"]), ("search", ["x"]), ("locale", ["en_US"])] ∧
    url.Values.lookup
        (mergeQuery [("page", ["1"]), ("limit", ["10"]), ("search", ["x"])]
          [("limit", ["25", "100"]), ("search", []), ("locale", ["en_US"])]) "limit"
      = some ["100"] ∧
    url.Values.lookup
        (mergeQuery [("page", ["1"]), ("limit", ["10"]), ("search", ["x"])]
          [("limit", ["25", "100"]), ("search", []), ("locale", ["en_US"])]) "search"
      = some ["x"] :=
  have h := merge_query_options (exampleEnv 0 {}) 0 "GET"
    ⟨"api/rest/v1/products?page=1&limit=10&search=x",
     .ok ("api/rest/v1/products", [("page", ["1"]), ("limit", ["10"]), ("search", ["x"])])⟩
    none { exampleWorld with tokenExp := 10000000000000 } "api/rest/v1/products"
    [("page", ["1"]), ("limit", ["10"]), ("search", ["x"])]
    [("limit", ["25", "100"]), ("search", []), ("locale", ["en_US"])]
    (by decide) rfl (by decide) rfl
  ⟨by decide,
   (h.1 "limit" ["25", "100"] (by simp) (by simp)).trans rfl,
   (h.2.1 "search" (fun vals hm => by simpa using hm)).trans rfl⟩

end goakeneo
